import Mathlib

/-!
Verification development for the strict_hdds storage-layout library
(`src/python3/strict_hdds/util.py`, `layout_efi_bcache_lvm_ext4.py`,
`layout_efi_bcachefs.py`).

Block devices are modelled as byte buffers (`List Nat`, every entry a byte
value `< 256`); `struct.pack_into` / `f.write` become `writeBytes`, and
`f.seek`+`f.read` become `readBytes`.  All multi-byte integer fields are
little-endian, matching the native x86 layout used by the Python `struct`
module in the source.
-/

/-- Model of writing `data` into a byte buffer at offset `off`
(`struct.pack_into` / seek-then-write on a device). -/
def writeBytes (buf : List Nat) (off : Nat) (data : List Nat) : List Nat :=
  buf.take off ++ data ++ buf.drop (off + data.length)

/-- Model of reading `len` bytes at offset `off` (seek-then-read). -/
def readBytes (buf : List Nat) (off len : Nat) : List Nat :=
  (buf.drop off).take len

/-- Little-endian 16-bit encoding (`struct.pack("H", v)`). -/
def le16 (v : Nat) : List Nat :=
  [v % 256, v / 256 % 256]

/-- Little-endian 32-bit encoding (`struct.pack("I", v)`). -/
def le32 (v : Nat) : List Nat :=
  [v % 256, v / 256 % 256, v / 65536 % 256, v / 16777216 % 256]

/-- Little-endian 64-bit encoding (`struct.pack("Q", v)`). -/
def le64 (v : Nat) : List Nat :=
  [v % 256, v / 256 % 256, v / 256 ^ 2 % 256, v / 256 ^ 3 % 256,
   v / 256 ^ 4 % 256, v / 256 ^ 5 % 256, v / 256 ^ 6 % 256, v / 256 ^ 7 % 256]

/-- Little-endian decoding of a byte list (`struct.unpack`). -/
def leToNat (bs : List Nat) : Nat :=
  bs.foldr (fun b acc => b + 256 * acc) 0

/-- One shift step of the CRC-64/WE computation (MSB-first, polynomial
`0x42F0E1EBA9EA3693`, as implemented by `crcmod.predefined.Crc("crc-64-we")`). -/
def crc64ShiftBit (c : Nat) : Nat :=
  if c.testBit 63 then Nat.xor (c * 2 % 2 ^ 64) 0x42F0E1EBA9EA3693
  else c * 2 % 2 ^ 64

/-- Folding one input byte into the CRC-64/WE state. -/
def crc64Byte (c b : Nat) : Nat :=
  (List.range 8).foldl (fun acc _ => crc64ShiftBit acc) (Nat.xor c (b % 256 * 2 ^ 56))

/-- CRC-64/WE over a byte list: init and xor-out are all-ones, no reflection. -/
def crc64we (data : List Nat) : Nat :=
  Nat.xor (data.foldl crc64Byte 0xFFFFFFFFFFFFFFFF) 0xFFFFFFFFFFFFFFFF

/-- Errors surfaced by the binary-format codec: `ConfigError` for invalid
superblock parameters (the two `raise Exception(...)` sites in
`bcacheMakeDevice`) and `PreconditionError` for invoking an operation on a
device role it does not support (`assert util.bcacheIsCacheDevice(devPath)`
in `bcacheGetSetUuid`; spec section 7). -/
inductive UtilError where
  | configError
  | preconditionError
deriving DecidableEq, Repr

/-- The 16-byte bcache superblock magic (`bcacheSbMagic` in the source). -/
def bcacheSbMagic : List Nat :=
  [0xc6, 0x85, 0x73, 0xf6, 0x4e, 0x1a, 0x45, 0xca,
   0x82, 0x65, 0xf5, 0x7f, 0x48, 0xba, 0x6d, 0x81]

/--
`util.bcacheMakeDevice(devPath, backingDeviceOrCacheDevice, blockSize, bucketSize, dataOffset)`.

The `cache_sb` struct format `"QQQ16B16B16B32BQQ8QQHHHHIHH"` is 208 bytes with
fields at offsets: csum 0, offset 8, version 16, magic 24, uuid 40, set_uuid 56,
label 72, flags 104, seq 112, pad 120, union 184, block_size 192,
bucket_size 194, nr_in_set 196, nr_this_dev 198, last_mount 200,
first_bucket 204, njournal_buckets 206.

Deviations from the struct layout that the source code exhibits are reproduced
faithfully: in the backing-device branch the cursor `p` is not advanced over
`nr_in_set` (it is only advanced for a cache device), so `first_bucket` is
packed at offset 202 for a backing device and 204 for a cache device.

I/O is replaced by parameters: `devSize` is `util.getBlkDevSize(devPath)`
(bytes), `sectorSize` is the `blockdev --getss` result used for the blockSize
default, and `devUuid`/`setUuid` stand for the two freshly generated
`uuid.uuid4()` values (16 bytes each).  The returned buffer is everything the
function writes to the device from offset 0: 8 zero sectors, the 208-byte
superblock, then 2048 zero bytes for `cache_sb.d`.  Nothing is written on the
error paths (both `raise` sites precede the `open(devPath, "r+b")`).
-/
def bcacheSbBase (versionVal flagsVal : Nat) (devUuid setUuid : List Nat) : List Nat :=
  -- cache_sb.csum skipped (offset_content = 8); cache_sb.offset = 8 (SB_SECTOR);
  -- cache_sb.version; cache_sb.magic; cache_sb.uuid; cache_sb.set_uuid;
  -- cache_sb.label skipped; cache_sb.flags; cache_sb.seq and cache_sb.pad
  -- skipped, leaving the cursor at p = 184.
  writeBytes (writeBytes (writeBytes (writeBytes (writeBytes
    (writeBytes (List.replicate 208 0) 8 (le64 8)) 16 (le64 versionVal))
    24 bcacheSbMagic) 40 devUuid) 56 setUuid) 104 (le64 flagsVal)

def bcacheSbTail (backingDeviceOrCacheDevice : Bool) (blockSize bucketSize : Nat)
    (sb7 : List Nat) : List Nat :=
  -- cache_sb.block_size at 192; cache_sb.bucket_size at 194;
  -- cache_sb.nr_in_set = 1 packed only for a cache device (the cursor is
  -- advanced over it only in that case); nr_this_dev and last_mount skipped;
  -- cache_sb.first_bucket lands at 202 for a backing device, 204 for a cache
  -- device; finally cache_sb.csum = CRC-64/WE of every byte after the csum
  -- field, packed at 0.
  let sb8 := writeBytes sb7 192 (le16 blockSize)
  let sb9 := writeBytes sb8 194 (le16 bucketSize)
  let sb10 := cond backingDeviceOrCacheDevice sb9 (writeBytes sb9 196 (le16 1))
  let sb11 := writeBytes sb10 (cond backingDeviceOrCacheDevice 202 204)
    (le16 (23 / bucketSize + 1))
  writeBytes sb11 0 (le64 (crc64we (sb11.drop 8)))

def bcacheMakeDevice (devSize : Nat) (backingDeviceOrCacheDevice : Bool)
    (blockSizeOpt bucketSizeOpt dataOffsetOpt : Option Nat)
    (devUuid setUuid : List Nat) (sectorSize : Nat) :
    Except UtilError (List Nat × List Nat × List Nat) :=
  let blockSize := blockSizeOpt.getD (sectorSize / 512)
  let bucketSize := bucketSizeOpt.getD 1024
  if bucketSize < blockSize then
    .error .configError
  else
    -- fields up to cache_sb.pad; version 1 = BCACHE_SB_VERSION_BDEV for a
    -- backing device, 0 = BCACHE_SB_VERSION_CDEV for a cache device; flags
    -- 0x01 = CACHE_MODE_WRITEBACK for a backing device, 0x00 otherwise
    let sb6 := bcacheSbBase (cond backingDeviceOrCacheDevice 1 0)
      (cond backingDeviceOrCacheDevice 1 0) devUuid setUuid
    let unionPart : Except UtilError (List Nat) :=
      if backingDeviceOrCacheDevice then
        match dataOffsetOpt with
        | some dOff =>
          -- version rewritten to 4 (BCACHE_SB_VERSION_BDEV_WITH_OFFSET),
          -- cache_sb.data_offset packed at 184
          .ok (writeBytes (writeBytes sb6 16 (le64 4)) 184 (le64 dOff))
        | none => .ok sb6
      else
        -- cache_sb.nbuckets = device size in sectors / bucketSize
        let nbuckets := devSize / 512 / bucketSize
        if nbuckets < 0x80 then .error .configError
        else .ok (writeBytes sb6 184 (le64 nbuckets))
    match unionPart with
    | .error e => .error e
    | .ok sb7 =>
      .ok (List.replicate (8 * 512) 0 ++
        bcacheSbTail backingDeviceOrCacheDevice blockSize bucketSize sb7 ++
        List.replicate (256 * 8) 0, devUuid, setUuid)

/-- `util._bcacheIsBackingDeviceOrCachDevice(devPath, backingDeviceOrCacheDevice)`:
reads the magic at `8*512 + calcsize("QQQ") = 4120` and the version at
`8*512 + calcsize("QQ") = 4112` and checks them against the role's allowed
version set (backing: {1, 4}; cache: {0, 3}).  `img` stands for the device's
byte contents. -/
def bcacheIsBackingDeviceOrCachDevice (img : List Nat)
    (backingDeviceOrCacheDevice : Bool) : Bool :=
  if readBytes img (8 * 512 + 24) 16 ≠ bcacheSbMagic then
    false
  else
    let value := leToNat (readBytes img (8 * 512 + 16) 8)
    if backingDeviceOrCacheDevice then
      decide (value = 1 ∨ value = 4)
    else
      decide (value = 0 ∨ value = 3)

/-- `util.bcacheIsBackingDevice(devPath)`. -/
def bcacheIsBackingDevice (img : List Nat) : Bool :=
  bcacheIsBackingDeviceOrCachDevice img true

/-- `util.bcacheIsCacheDevice(devPath)`. -/
def bcacheIsCacheDevice (img : List Nat) : Bool :=
  bcacheIsBackingDeviceOrCachDevice img false

/-- `util.bcacheGetSetUuid(devPath)`: asserts the device is a cache device
(per spec section 7 this precondition violation is `PreconditionError`),
then reads the 16-byte set uuid at `8*512 + calcsize("QQQ16B16B") = 4152`. -/
def bcacheGetSetUuid (img : List Nat) : Except UtilError (List Nat) :=
  if bcacheIsCacheDevice img then
    .ok (readBytes img (8 * 512 + 56) 16)
  else
    .error .preconditionError

def bcacheWitnessImg : List Nat :=
  List.replicate (8 * 512) 0 ++ bcacheSbTail false 1 1024
    (writeBytes (bcacheSbBase 0 0 (List.replicate 16 1) (List.replicate 16 2)) 184
      (le64 (67108864 / 512 / 1024))) ++ List.replicate (256 * 8) 0

/-- Regex character class `[a-z]` (`re` module, ASCII device names). -/
def charIsLower (c : Char) : Bool :=
  97 ≤ c.toNat && c.toNat ≤ 122

/-- Regex character class `[0-9]`. -/
def charIsDigit (c : Char) : Bool :=
  48 ≤ c.toNat && c.toNat ≤ 57

/-- Python `int(...)` on a nonempty string of decimal digits. -/
def digitsToNat (cs : List Char) : Nat :=
  cs.foldl (fun acc c => acc * 10 + (c.toNat - 48)) 0

/-- Helper for `natDigits`, structurally recursive on a fuel argument so that
it reduces inside the kernel (`fuel > n` always suffices). -/
def natDigitsAux (fuel n : Nat) : List Char :=
  match fuel with
  | 0 => []
  | fuel + 1 =>
    if n < 10 then [Char.ofNat (48 + n)]
    else natDigitsAux fuel (n / 10) ++ [Char.ofNat (48 + n % 10)]

/-- Python `str(...)` on a natural number: decimal digits, no leading zeros. -/
def natDigits (n : Nat) : List Char :=
  natDigitsAux (n + 1) n

/-- Full match of `pre ++ "[a-z]"` (the disk patterns `/dev/sd[a-z]`,
`/dev/xvd[a-z]`, `/dev/vd[a-z]`; a single greedy character class each, so the
executable matcher is equivalent to `re.fullmatch`). -/
def matchAlphaDisk (pre cs : List Char) : Bool :=
  decide (cs.take pre.length = pre) &&
    (match cs.drop pre.length with
     | [c] => charIsLower c
     | _ => false)

/-- Full match of `(pre ++ "[a-z]")([0-9]+)` returning the two groups
(the partition patterns `(/dev/sd[a-z])([0-9]+)` etc.).  The letter is a
single character and everything after it must be digits, so greedy matching
has a unique decomposition and equals `re.fullmatch`. -/
def matchAlphaParti (pre cs : List Char) : Option (List Char × Nat) :=
  if cs.take pre.length = pre then
    match cs.drop pre.length with
    | c :: rest =>
      if charIsLower c && !rest.isEmpty && rest.all charIsDigit then
        some (pre ++ [c], digitsToNat rest)
      else none
    | [] => none
  else none

/-- Full match of `/dev/nvme[0-9]+n[0-9]+`.  Each `[0-9]+` run is delimited by
a non-digit literal (`n`, end), so the greedy takeWhile split is the unique
decomposition and equals `re.fullmatch`. -/
def matchNvmeDisk (cs : List Char) : Bool :=
  decide (cs.take 9 = "/dev/nvme".toList) &&
    (let rest := cs.drop 9
     let d1 := rest.takeWhile charIsDigit
     let r2 := rest.dropWhile charIsDigit
     !d1.isEmpty &&
       match r2 with
       | 'n' :: r3 => !r3.isEmpty && r3.all charIsDigit
       | _ => false)

/-- Full match of `(/dev/nvme[0-9]+n[0-9]+)p([0-9]+)` returning the two groups.
Each `[0-9]+` run is delimited by a non-digit literal (`n`, `p`, end), so the
greedy takeWhile split is the unique decomposition and equals `re.fullmatch`. -/
def matchNvmeParti (cs : List Char) : Option (List Char × Nat) :=
  if cs.take 9 = "/dev/nvme".toList then
    let rest := cs.drop 9
    let d1 := rest.takeWhile charIsDigit
    let r2 := rest.dropWhile charIsDigit
    if d1.isEmpty then none
    else
      match r2 with
      | 'n' :: r3 =>
        let d2 := r3.takeWhile charIsDigit
        let r4 := r3.dropWhile charIsDigit
        if d2.isEmpty then none
        else
          match r4 with
          | 'p' :: d3 =>
            if !d3.isEmpty && d3.all charIsDigit then
              some ("/dev/nvme".toList ++ d1 ++ 'n' :: d2, digitsToNat d3)
            else none
          | _ => none
      | _ => none
  else none

/-- `util.devPathIsDiskOrPartition(devPath)`: `re.fullmatch` against the four
disk patterns (true) and the four partition patterns (false), in source order;
`assert False` (modelled as `none`) for everything else. -/
def devPathIsDiskOrPartition (devPath : String) : Option Bool :=
  let cs := devPath.toList
  if matchAlphaDisk "/dev/sd".toList cs then some true
  else if (matchAlphaParti "/dev/sd".toList cs).isSome then some false
  else if matchAlphaDisk "/dev/xvd".toList cs then some true
  else if (matchAlphaParti "/dev/xvd".toList cs).isSome then some false
  else if matchAlphaDisk "/dev/vd".toList cs then some true
  else if (matchAlphaParti "/dev/vd".toList cs).isSome then some false
  else if matchNvmeDisk cs then some true
  else if (matchNvmeParti cs).isSome then some false
  else none

/-- `util.devPathPartitionToDiskAndPartitionId(partitionDevPath)`: tries the
four partition patterns in source order, returning `(group(1), int(group(2)))`;
`assert False` (modelled as `none`) otherwise. -/
def devPathPartitionToDiskAndPartitionId (partitionDevPath : String) :
    Option (String × Nat) :=
  let cs := partitionDevPath.toList
  match matchAlphaParti "/dev/sd".toList cs with
  | some (d, i) => some (String.mk d, i)
  | none =>
  match matchAlphaParti "/dev/xvd".toList cs with
  | some (d, i) => some (String.mk d, i)
  | none =>
  match matchAlphaParti "/dev/vd".toList cs with
  | some (d, i) => some (String.mk d, i)
  | none =>
  match matchNvmeParti cs with
  | some (d, i) => some (String.mk d, i)
  | none => none

/-- `util.devPathPartitionToDisk(partitionDevPath)`: first component of
`devPathPartitionToDiskAndPartitionId`. -/
def devPathPartitionToDisk (partitionDevPath : String) : Option String :=
  match devPathPartitionToDiskAndPartitionId partitionDevPath with
  | some (d, _) => some d
  | none => none

/-- `util.devPathDiskToPartition(diskDevPath, partitionId)`: appends
`str(partitionId)` (with a `p` separator for nvme) after matching the disk
pattern; `assert False` (modelled as `none`) otherwise. -/
def devPathDiskToPartition (diskDevPath : String) (partitionId : Nat) :
    Option String :=
  let cs := diskDevPath.toList
  if matchAlphaDisk "/dev/sd".toList cs then
    some (diskDevPath ++ String.mk (natDigits partitionId))
  else if matchAlphaDisk "/dev/xvd".toList cs then
    some (diskDevPath ++ String.mk (natDigits partitionId))
  else if matchAlphaDisk "/dev/vd".toList cs then
    some (diskDevPath ++ String.mk (natDigits partitionId))
  else if matchNvmeDisk cs then
    some (diskDevPath ++ "p" ++ String.mk (natDigits partitionId))
  else none

/-- Hex digit value (Python `int(..., 16)` via the `exec("n = 0x...")` calls in
`gptNewGuid`; a non-hex character is a parse failure). -/
def hexVal (c : Char) : Option Nat :=
  if 48 ≤ c.toNat ∧ c.toNat ≤ 57 then some (c.toNat - 48)
  else if 97 ≤ c.toNat ∧ c.toNat ≤ 102 then some (c.toNat - 87)
  else if 65 ≤ c.toNat ∧ c.toNat ≤ 70 then some (c.toNat - 55)
  else none

/-- Hex string to number, most significant digit first. -/
def hexToNat (cs : List Char) : Option Nat :=
  cs.foldl (fun acc c =>
    match acc, hexVal c with
    | some a, some v => some (a * 16 + v)
    | _, _ => none) (some 0)

/-- The byte-wise loop for `gpt_guid.node`: two hex digits per byte. -/
def hexPairs : List Char → Option (List Nat)
  | [] => some []
  | c1 :: c2 :: rest =>
    match hexVal c1, hexVal c2, hexPairs rest with
    | some v1, some v2, some t => some ((v1 * 16 + v2) :: t)
    | _, _, _ => none
  | _ => none

/-- `util.gptNewGuid(guidStr)`: checks the canonical 36-char dashed format,
strips dashes, splits into the five `gpt_guid` fields plus the 6 node bytes,
and packs them with `struct.pack("IHHBB6s", ...)`: the first three fields
little-endian, the last 8 bytes literal. -/
def gptNewGuid (guidStr : String) : Option (List Nat) :=
  let cs := guidStr.toList
  if cs.length = 36 ∧ cs.getD 8 ' ' = '-' ∧ cs.getD 13 ' ' = '-' ∧
      cs.getD 18 ' ' = '-' ∧ cs.getD 23 ' ' = '-' then
    let cs2 := cs.filter (fun c => c != '-')
    match hexToNat (cs2.take 8), hexToNat ((cs2.drop 8).take 4),
      hexToNat ((cs2.drop 12).take 4), hexToNat ((cs2.drop 16).take 2),
      hexToNat ((cs2.drop 18).take 2), hexPairs (cs2.drop 20) with
    | some n1, some n2, some n3, some n4, some n5, some n6 =>
      some (le32 n1 ++ le16 n2 ++ le16 n3 ++ [n4, n5] ++ n6)
    | _, _, _, _, _, _ => none
  else none

/-- `util.gptIsEspPartition(devPath)`.  `img` is the byte contents of the
containing disk (opened via `devPathPartitionToDiskAndPartitionId(devPath)`,
whose `assert False` on a non-partition path is modelled as `none`).

The protective MBR occupies sector 0: `mbrHeader[4]` is the 16-bit boot
signature at offset 510, and the four 16-byte partition records start at
offset 446 with the os_type byte at record offset 4.  The GPT header occupies
sector 1 (the file cursor is at 512 after the first `f.read`), with
`gptHeader[10] = partition_entry_lba` at header offset 72.  The 128-byte GPT
entry addressed by the 1-based partition id starts at `entry_lba * 512 +
128 * (partId - 1)`; its leading 16 bytes are the type GUID. -/
def gptIsEspPartition (img : List Nat) (devPath : String) : Option Bool :=
  match devPathPartitionToDiskAndPartitionId devPath with
  | none => none
  | some (_diskDevPath, partId) =>
    if leToNat (readBytes img 510 2) ≠ 0xAA55 then some false
    else if ((List.range 4).any fun i =>
        img.getD (446 + 16 * i + 4) 0 == 0xEE) = false then some false
    else
      let entryLba := leToNat (readBytes img (512 + 72) 8)
      let typeGuid := readBytes img (entryLba * 512 + 128 * (partId - 1)) 16
      if some typeGuid ≠ gptNewGuid "C12A7328-F81F-11D2-BA4B-00A0C93EC93B" then
        some false
      else some true

/-- Size unit of an explicitly sized entry (`"([0-9]+)(MiB|GiB|TiB)"`). -/
inductive SizeUnit where
  | mib
  | gib
  | tib
deriving DecidableEq, Repr

/-- A partition size spec entry: an explicit size, or the `"*"` sentinel
("remaining space").  A size string that matches neither form fails the
regex `assert` in the source; the structured type carries only the two legal
shapes. -/
inductive PSize where
  | fixed (n : Nat) (u : SizeUnit)
  | star
deriving DecidableEq, Repr

/-- A partition as laid out on the disk (geometry in sectors plus the role
string passed as `pType`). -/
structure Parti where
  pStart : Nat
  pEnd : Nat
  pType : String
deriving DecidableEq, Repr

/-- Errors of `initializeDisk`: `insufficientSpace` is the
`raise Exception("not enough space")` (`InsufficientSpaceError`), `assertFail`
any failed `assert` (and the external parted library rejecting an empty
geometry). -/
inductive InitError where
  | insufficientSpace
  | assertFail
deriving DecidableEq, Repr

/-- A free-space region (`parted` geometry, in sectors). -/
structure Region where
  rStart : Nat
  rEnd : Nat
deriving DecidableEq, Repr

/-- `parted.sizeToSectors(n, unit, sectorSize)` with the 512-byte sector size
this code base assumes throughout (every byte offset in `util.py` hardcodes
512-byte sectors). -/
def sizeToSectors (n : Nat) (u : SizeUnit) : Nat :=
  match u with
  | .mib => n * (1048576 / 512)
  | .gib => n * (1073741824 / 512)
  | .tib => n * (1099511627776 / 512)

/-- `_getFreeRegion(disk)`: the single contiguous free region.  The parted
calls (`getFreeSpaceRegions`, alignment grains) are external; after the
alignment-gap filter the code asserts there is exactly one free region, which
for the sequential allocation this function performs is the region after the
last allocated partition, ending at the last sector.  The
`if region.start < 2048: region.start = 2048` clamp is from the source. -/
def getFreeRegion (totalSectors : Nat) (parts : List Parti) : Region :=
  let rStart := match parts.getLast? with
    | none => 0
    | some p => p.pEnd + 1
  let rStart := if rStart < 2048 then 2048 else rStart
  { rStart := rStart, rEnd := totalSectors - 1 }

/-- `_addPartition(disk, pType, pStart, pEnd)`: validates the role (and the
role/table-type combinations asserted in the source; note the source has
renamed an `"mbr"` table type to `"msdos"` *before* this helper runs, so its
`partitionTableType == "mbr"` comparison in the swap branch can never be
true), then appends the partition.  `parted.Partition`/`parted.Geometry`
reject an empty geometry (`pEnd < pStart`), modelled as `assertFail`.
Alignment constraints are identity (external library). -/
def addPartition (partitionTableType : String) (parts : List Parti)
    (pType : String) (pStart pEnd : Nat) : Except InitError (List Parti) :=
  if pEnd < pStart then .error .assertFail
  else if pType = "" then .ok (parts ++ [⟨pStart, pEnd, pType⟩])
  else if pType = "esp" then
    if partitionTableType = "gpt" then .ok (parts ++ [⟨pStart, pEnd, pType⟩])
    else .error .assertFail
  else if pType = "bcache" then
    if partitionTableType = "gpt" then .ok (parts ++ [⟨pStart, pEnd, pType⟩])
    else .error .assertFail
  else if pType = "swap" then
    if partitionTableType = "mbr" then .ok (parts ++ [⟨pStart, pEnd, pType⟩])
    else if partitionTableType = "gpt" then .ok (parts ++ [⟨pStart, pEnd, pType⟩])
    else .error .assertFail
  else if pType = "lvm" then .ok (parts ++ [⟨pStart, pEnd, pType⟩])
  else if pType = "vfat" then .ok (parts ++ [⟨pStart, pEnd, pType⟩])
  else if pType = "ext2" ∨ pType = "ext4" ∨ pType = "xfs" then
    .ok (parts ++ [⟨pStart, pEnd, pType⟩])
  else .error .assertFail

/-- `_erasePartitionSignature(devPath, pStart, pEnd)`: the zero-fill write it
performs, as (first sector, number of sectors): the whole range when shorter
than 32 sectors, else 32 sectors from `pStart`. -/
def erasePartitionSignature (pStart pEnd : Nat) : Nat × Nat :=
  if pEnd - pStart + 1 < 32 then (pStart, pEnd - pStart + 1) else (pStart, 32)

/-- The `partitionInfoList => preList & postList` loop: remembers the index of
the first `"*"`, fails the `assert preList is None` on a second `"*"`. -/
def findStarIndex : List (PSize × String) → Nat → Option Nat →
    Except InitError (Option Nat)
  | [], _, acc => .ok acc
  | (pSize, _) :: rest, i, acc =>
    match pSize, acc with
    | .star, some _ => .error .assertFail
    | .star, none => findStarIndex rest (i + 1) (some i)
    | _, _ => findStarIndex rest (i + 1) acc

/-- Split of the spec list at the first `"*"` (everything from the sentinel on
goes to `postList`); no sentinel puts the whole list in `preList`. -/
def splitStar (partitionInfoList : List (PSize × String)) :
    Except InitError (List (PSize × String) × List (PSize × String)) :=
  match findStarIndex partitionInfoList 0 none with
  | .error e => .error e
  | .ok none => .ok (partitionInfoList, [])
  | .ok (some i) => .ok (partitionInfoList.take i, partitionInfoList.drop i)

/-- The `# process preList` loop of `initializeDisk`: allocates each
explicitly-sized entry at the start of the current free region (failing with
`insufficientSpace` when it does not fit), then erases the partition
signature.  A `"*"` entry here corresponds to the regex `assert` failing.
Returns the partitions and the erase writes performed, in order. -/
def processPre (totalSectors : Nat) (partitionTableType : String) :
    List Parti → List (Nat × Nat) → List (PSize × String) →
    Except InitError (List Parti × List (Nat × Nat))
  | parts, eraseOps, [] => .ok (parts, eraseOps)
  | parts, eraseOps, (pSize, pType) :: rest =>
    let region := getFreeRegion totalSectors parts
    let pStart := region.rStart
    let pEnd := region.rEnd
    match pSize with
    | .star => .error .assertFail
    | .fixed n u =>
      let sectorNum := sizeToSectors n u
      if pEnd < pStart + sectorNum - 1 then .error .insufficientSpace
      else
        match addPartition partitionTableType parts pType pStart
            (pStart + sectorNum - 1) with
        | .error e => .error e
        | .ok parts2 =>
          processPre totalSectors partitionTableType parts2
            (eraseOps ++ [erasePartitionSignature pStart pEnd]) rest

/-- The `# process postList` loop: the `"*"` entry consumes the whole current
free region; any non-`"*"` entry hits `assert False`. -/
def processPost (totalSectors : Nat) (partitionTableType : String) :
    List Parti → List (Nat × Nat) → List (PSize × String) →
    Except InitError (List Parti × List (Nat × Nat))
  | parts, eraseOps, [] => .ok (parts, eraseOps)
  | parts, eraseOps, (pSize, pType) :: rest =>
    let region := getFreeRegion totalSectors parts
    let pStart := region.rStart
    let pEnd := region.rEnd
    match pSize with
    | .star =>
      match addPartition partitionTableType parts pType pStart pEnd with
      | .error e => .error e
      | .ok parts2 =>
        processPost totalSectors partitionTableType parts2
          (eraseOps ++ [erasePartitionSignature pStart pEnd]) rest
    | .fixed _ _ => .error .assertFail

/-- `util.initializeDisk(devPath, partitionTableType, partitionInfoList)`:
asserts the table type and a nonempty spec, renames `"mbr"` to `"msdos"`,
splits the spec at the `"*"` sentinel, wipes the table (`parted.freshDisk`,
physical side effect, state starts from no partitions), then runs the preList
and postList loops.  The final `disk.commit()` and settle `time.sleep(3)` have
no model state.  Returns the partition table and the ordered list of
signature-erase writes `(startSector, sectorCount)`. -/
def initializeDisk (totalSectors : Nat) (partitionTableType : String)
    (partitionInfoList : List (PSize × String)) :
    Except InitError (List Parti × List (Nat × Nat)) :=
  if ¬ (partitionTableType = "mbr" ∨ partitionTableType = "gpt") then
    .error .assertFail
  else if partitionInfoList.length < 1 then .error .assertFail
  else
    let ptt := if partitionTableType = "mbr" then "msdos" else partitionTableType
    match splitStar partitionInfoList with
    | .error e => .error e
    | .ok (preList, postList) =>
      match processPre totalSectors ptt [] [] preList with
      | .error e => .error e
      | .ok (parts, eraseOps) =>
        match processPost totalSectors ptt parts eraseOps postList with
        | .error e => .error e
        | .ok (parts2, eraseOps2) => .ok (parts2, eraseOps2)

/-- The layout property claimed for `initializeDisk`: partitions appear
strictly in spec order, each allocated at the start of the free region left by
its predecessors, explicitly sized entries with exactly their requested size
and the `"*"` sentinel consuming its whole free region. -/
def layoutOk (totalSectors : Nat) (parts : List Parti) :
    List (PSize × String) → List Parti → Prop
  | [], [] => True
  | (pSize, pType) :: rest, q :: qrest =>
    q.pStart = (getFreeRegion totalSectors parts).rStart ∧
    q.pType = pType ∧
    (match pSize with
     | .fixed n u => q.pEnd + 1 = q.pStart + sizeToSectors n u
     | .star => q.pEnd = (getFreeRegion totalSectors parts).rEnd) ∧
    layoutOk totalSectors (parts ++ [q]) rest qrest
  | _, _ => False

/-- The erase-bound property claimed for each created partition: the erase
write starts at the partition start, covers 32 sectors (or the whole
partition when it is shorter than 32 sectors), and never extends past the
partition's end. -/
def eraseOpOk (q : Parti) (op : Nat × Nat) : Prop :=
  op.1 = q.pStart ∧
  ((q.pEnd + 1 - q.pStart < 32 ∧ op.2 = q.pEnd + 1 - q.pStart) ∨
   (32 ≤ q.pEnd + 1 - q.pStart ∧ op.2 = 32)) ∧
  op.1 + op.2 ≤ q.pEnd + 1

/-- Reasons of `errors.StorageLayoutRemoveDiskError` raised by the layout
sources: `errors.SWAP_IS_IN_USE`, `errors.CAN_NOT_REMOVE_LAST_HDD`, and the
free-form failure message of the pvmove branch. -/
inductive RemoveReason where
  | swapIsInUse
  | canNotRemoveLastHdd
  | failed
deriving DecidableEq, Repr

/-- Exceptions escaping the layout methods: `StorageLayoutAddDiskError(disk,
NOT_DISK)`, `StorageLayoutRemoveDiskError(reason)`, a failed `assert`, a
Python `AttributeError` (attribute access on a name the object does not
define), and a Python `TypeError`/crash from passing `None` where a device
path is required. -/
inductive LayoutError where
  | addDiskNotDisk
  | removeDiskError (reason : RemoveReason)
  | assertFail
  | attributeError
  | noneTypeError
deriving DecidableEq, Repr

/-- Physical (device-mutating) operations the layout methods invoke, in
program order; read-only queries (findByBackingDevice, sysfs reads) are not
operations. -/
inductive PhysOp where
  | makeAndRegisterCacheDevice (parti : String)
  | makeAndRegisterBackingDevice (parti : String)
  | attachCacheDevice (bcacheDevList : List String) (parti : String)
  | addPvToVg (bcacheDev : String)
  | unregisterCacheDevice (parti : String)
  | pvmove (bcacheDev : String)
  | vgreduce (bcacheDev : String)
  | stopBackingDevice (bcacheDev : String)
  | bcachefsMakeDevice (parti : String)
  | bcachefsDeviceAdd (parti : String)
  | bcachefsRemoveDevice (parti : String)
deriving DecidableEq, Repr

/-- Environment the layout methods consult: `Util.getDevPathListForFixedDisk`,
`Util.isBlkDevSsdOrHdd`, `Util.systemdFindSwapService` (is-Some abstracted to
Bool), the return code of the `pvmove` call, `BcacheUtil.findByBackingDevice`,
and `HandyUtil.cgFindByBackingDeviceList`. -/
structure LayoutEnv where
  fixedDiskList : List String
  isSsd : String → Bool
  swapServiceExists : String → Bool
  pvmoveRc : Int
  findByBackingDevice : String → Option String
  cgFindByBackingDeviceList : List String

/-- Modelled from the spec: the `EfiCacheGroup` class is imported from this
repository's `util` module but its definition is not among the provided
sources; fields follow spec section 3 (CacheGroupModel) and the
`EfiCacheGroup(ssd=..., ssdEspParti=..., ssdSwapParti=..., ssdCacheParti=...,
hddList=..., bootHdd=...)` constructor calls in the layout sources. -/
structure EfiCacheGroup where
  ssd : Option String
  ssdEspParti : Option String
  ssdSwapParti : Option String
  ssdCacheParti : Option String
  hddList : List String
  bootHdd : Option String
deriving DecidableEq, Repr

/-- Modelled from the spec: `boot_disk` is the proxied boot-disk accessor;
spec section 3 states `bootHdd` is `None` when an SSD is present (the SSD's
ESP is used), and the end-to-end scenario states `boot_disk` is `None` with
an SSD present, so `boot_disk` reads the `bootHdd` field (the layout code
stores it into `lastBootHdd`). -/
def boot_disk (cg : EfiCacheGroup) : Option String :=
  cg.bootHdd

/-- Modelled from the spec (section 4.4 `addSsd`): legal only when no SSD is
present (a violation is a defensive assertion per section 7);
partitions/records the 3-way SSD partition set (ESP = partition 1,
swap = partition 2, cache = partition 3 per the layout docstrings) and sets
`bootHdd = None`. -/
def add_ssd (cg : EfiCacheGroup) (disk : String) : Except LayoutError EfiCacheGroup :=
  if cg.ssd.isSome then .error .assertFail
  else
    match devPathDiskToPartition disk 1, devPathDiskToPartition disk 2,
        devPathDiskToPartition disk 3 with
    | some p1, some p2, some p3 =>
      .ok { cg with
              ssd := some disk
              ssdEspParti := some p1
              ssdSwapParti := some p2
              ssdCacheParti := some p3
              bootHdd := none }
    | _, _, _ => .error .assertFail

/-- Modelled from the spec (section 4.4 `addHdd`): appends to `hddList`; if
this is the first HDD and no SSD exists it becomes `bootHdd`. -/
def add_hdd (cg : EfiCacheGroup) (disk : String) : EfiCacheGroup :=
  { cg with
      hddList := cg.hddList ++ [disk]
      bootHdd := if cg.hddList.isEmpty ∧ cg.ssd.isNone then some disk else cg.bootHdd }

/-- Modelled from the spec (section 4.4 `removeSsd`): legal only when an SSD
is present; clears the SSD fields and promotes `hddList[0]` to `bootHdd`. -/
def remove_ssd (cg : EfiCacheGroup) : Except LayoutError EfiCacheGroup :=
  if cg.ssd.isNone then .error .assertFail
  else
    match cg.hddList with
    | [] => .error .assertFail
    | h :: _ =>
      .ok { cg with
              ssd := none
              ssdEspParti := none
              ssdSwapParti := none
              ssdCacheParti := none
              bootHdd := some h }

/-- Modelled from the spec (section 4.4 `removeHdd`): fails with
`LastDiskError` when it is the only HDD remaining (invariant I4); otherwise
removes it and, if it was `bootHdd`, promotes another HDD. -/
def remove_hdd (cg : EfiCacheGroup) (disk : String) : Except LayoutError EfiCacheGroup :=
  if cg.hddList.length ≤ 1 then .error (.removeDiskError .canNotRemoveLastHdd)
  else
    let newList := cg.hddList.erase disk
    .ok { cg with
            hddList := newList
            bootHdd := if cg.bootHdd = some disk then newList.head? else cg.bootHdd }

namespace LayoutEfiBcacheLvmExt4

/-- `StorageLayoutImpl.add_disk` of layout_efi_bcache_lvm_ext4.py: returns the
physical operations executed in program order together with the method
result.  The HDD branch reads `self._cg.get_ssd_cache_partition()` (crashing
on `None` when no SSD exists) and then evaluates `self.cg.get_ssd()` on the
nonexistent attribute `cg`, raising `AttributeError` before the return
statement. -/
def add_disk (env : LayoutEnv) (cg : EfiCacheGroup) (disk : String) :
    List PhysOp × Except LayoutError (EfiCacheGroup × Bool) :=
  if disk ∉ env.fixedDiskList then ([], .error .addDiskNotDisk)
  else
    let lastBootHdd := boot_disk cg
    if env.isSsd disk then
      match add_ssd cg disk with
      | .error e => ([], .error e)
      | .ok cg2 =>
        match cg2.ssdCacheParti with
        | none => ([], .error .noneTypeError)
        | some parti =>
          ([PhysOp.makeAndRegisterCacheDevice parti,
            PhysOp.attachCacheDevice env.cgFindByBackingDeviceList parti],
           .ok (cg2, lastBootHdd != boot_disk cg2))
    else
      let cg2 := add_hdd cg disk
      match cg2.ssdCacheParti with
      | none => ([], .error .noneTypeError)
      | some parti =>
        ([PhysOp.makeAndRegisterBackingDevice parti], .error .attributeError)

/-- `StorageLayoutImpl.remove_disk` of layout_efi_bcache_lvm_ext4.py:
snapshots `boot_disk`, dispatches on SSD vs member HDD (else `assert False`),
and in the HDD branch checks the last-HDD guard, runs `pvmove` on the bcache
device, accepts only return code 5, then `vgreduce`, stops the backing
device, removes the HDD from the group and returns the boot-changed flag. -/
def remove_disk (env : LayoutEnv) (cg : EfiCacheGroup) (disk : String) :
    List PhysOp × Except LayoutError (EfiCacheGroup × Bool) :=
  let lastBootHdd := boot_disk cg
  if cg.ssd = some disk then
    if (match cg.ssdSwapParti with
        | some sp => env.swapServiceExists sp
        | none => false) then
      ([], .error (.removeDiskError .swapIsInUse))
    else
      match cg.ssdCacheParti with
      | none => ([], .error .noneTypeError)
      | some cp =>
        match remove_ssd cg with
        | .error e => ([PhysOp.unregisterCacheDevice cp], .error e)
        | .ok cg2 =>
          ([PhysOp.unregisterCacheDevice cp], .ok (cg2, lastBootHdd != boot_disk cg2))
  else if disk ∈ cg.hddList then
    if cg.hddList.length ≤ 1 then
      ([], .error (.removeDiskError .canNotRemoveLastHdd))
    else
      match devPathDiskToPartition disk 2 with
      | none => ([], .error .assertFail)
      | some dataParti =>
        match env.findByBackingDevice dataParti with
        | none => ([], .error .noneTypeError)
        | some bcacheDev =>
          if env.pvmoveRc ≠ 5 then
            ([PhysOp.pvmove bcacheDev], .error (.removeDiskError .failed))
          else
            match remove_hdd cg disk with
            | .error e =>
              ([PhysOp.pvmove bcacheDev, PhysOp.vgreduce bcacheDev,
                PhysOp.stopBackingDevice bcacheDev], .error e)
            | .ok cg2 =>
              ([PhysOp.pvmove bcacheDev, PhysOp.vgreduce bcacheDev,
                PhysOp.stopBackingDevice bcacheDev],
               .ok (cg2, lastBootHdd != boot_disk cg2))
  else ([], .error .assertFail)

end LayoutEfiBcacheLvmExt4

namespace LayoutEfiBcachefs

/-- `StorageLayoutImpl.add_disk` of layout_efi_bcachefs.py: the SSD branch
makes the cache partition a bcachefs device and returns the constant `True`;
the HDD branch snapshots `boot_disk`, adds the HDD, makes its data partition
(partition 2) a bcachefs device, runs `bcachefs device add`, and returns the
boot-changed flag. -/
def add_disk (env : LayoutEnv) (cg : EfiCacheGroup) (disk : String) :
    List PhysOp × Except LayoutError (EfiCacheGroup × Bool) :=
  if disk ∉ env.fixedDiskList then ([], .error .addDiskNotDisk)
  else if env.isSsd disk then
    match add_ssd cg disk with
    | .error e => ([], .error e)
    | .ok cg2 =>
      match cg2.ssdCacheParti with
      | none => ([], .error .noneTypeError)
      | some parti => ([PhysOp.bcachefsMakeDevice parti], .ok (cg2, true))
  else
    let lastBootHdd := boot_disk cg
    let cg2 := add_hdd cg disk
    match devPathDiskToPartition disk 2 with
    | none => ([], .error .assertFail)
    | some parti =>
      ([PhysOp.bcachefsMakeDevice parti, PhysOp.bcachefsDeviceAdd parti],
       .ok (cg2, lastBootHdd != boot_disk cg2))

/-- `StorageLayoutImpl.remove_disk` of layout_efi_bcachefs.py: the SSD branch
removes the cache partition from bcachefs, removes the SSD from the group and
returns the constant `True`; the HDD branch asserts membership, checks the
last-HDD guard, snapshots `boot_disk`, removes the data partition from
bcachefs, removes the HDD and returns the boot-changed flag. -/
def remove_disk (env : LayoutEnv) (cg : EfiCacheGroup) (devpath : String) :
    List PhysOp × Except LayoutError (EfiCacheGroup × Bool) :=
  if cg.ssd = some devpath then
    if (match cg.ssdSwapParti with
        | some sp => env.swapServiceExists sp
        | none => false) then
      ([], .error (.removeDiskError .swapIsInUse))
    else
      match cg.ssdCacheParti with
      | none => ([], .error .noneTypeError)
      | some cp =>
        match remove_ssd cg with
        | .error e => ([PhysOp.bcachefsRemoveDevice cp], .error e)
        | .ok cg2 => ([PhysOp.bcachefsRemoveDevice cp], .ok (cg2, true))
  else
    if devpath ∉ cg.hddList then ([], .error .assertFail)
    else if cg.hddList.length ≤ 1 then
      ([], .error (.removeDiskError .canNotRemoveLastHdd))
    else
      let lastBootHdd := boot_disk cg
      match devPathDiskToPartition devpath 2 with
      | none => ([], .error .assertFail)
      | some dataParti =>
        match remove_hdd cg devpath with
        | .error e => ([PhysOp.bcachefsRemoveDevice dataParti], .error e)
        | .ok cg2 =>
          ([PhysOp.bcachefsRemoveDevice dataParti],
           .ok (cg2, lastBootHdd != boot_disk cg2))

end LayoutEfiBcachefs

def cgC2 : EfiCacheGroup :=
  ⟨none, none, none, none, ["/dev/sdb"], some "/dev/sdb"⟩

def envC2 : LayoutEnv :=
  ⟨["/dev/sdb", "/dev/sdc"], fun _ => false, fun _ => false, 5, fun _ => none, []⟩

def cgC6 : EfiCacheGroup :=
  ⟨none, none, none, none, ["/dev/sdb", "/dev/sdc"], some "/dev/sdb"⟩

def envC6a : LayoutEnv :=
  ⟨["/dev/sdb", "/dev/sdc"], fun _ => false, fun _ => false, 1,
   fun _ => some "/dev/bcache0", []⟩

def envC6b : LayoutEnv :=
  ⟨["/dev/sdb", "/dev/sdc"], fun _ => false, fun _ => false, 5,
   fun _ => some "/dev/bcache0", []⟩

def envC7 : LayoutEnv :=
  ⟨["/dev/sda", "/dev/sdb", "/dev/sdc"], fun _ => false, fun _ => false, 5,
   fun _ => none, []⟩

def cgC7a : EfiCacheGroup :=
  ⟨none, none, none, none, ["/dev/sdb"], some "/dev/sdb"⟩

def cgC7b : EfiCacheGroup :=
  ⟨some "/dev/sda", some "/dev/sda1", some "/dev/sda2", some "/dev/sda3",
   ["/dev/sdb"], none⟩

theorem length_writeBytes (buf data : List Nat) (off : Nat)
    (h : off + data.length ≤ buf.length) :
    (writeBytes buf off data).length = buf.length := by
  simp [writeBytes]
  omega

theorem readBytes_writeBytes_self (buf data : List Nat) (off : Nat)
    (h : off + data.length ≤ buf.length) :
    readBytes (writeBytes buf off data) off data.length = data := by
  have ht : (buf.take off).length = off := by simp; omega
  simp only [readBytes, writeBytes, List.append_assoc]
  rw [List.drop_left' ht, List.take_append_of_le_length (by simp),
    List.take_of_length_le (by simp)]

theorem readBytes_writeBytes_before (buf data : List Nat) (off roff rlen : Nat)
    (h : roff + rlen ≤ off) (h2 : off ≤ buf.length) :
    readBytes (writeBytes buf off data) roff rlen = readBytes buf roff rlen := by
  simp only [readBytes, writeBytes, List.append_assoc]
  rw [List.drop_append_of_le_length (by simp; omega),
    List.take_append_of_le_length (by simp; omega), List.drop_take, List.take_take]
  congr 1
  omega

theorem readBytes_writeBytes_after (buf data : List Nat) (off roff rlen : Nat)
    (h : off + data.length ≤ roff) (h2 : off + data.length ≤ buf.length) :
    readBytes (writeBytes buf off data) roff rlen = readBytes buf roff rlen := by
  have hd : (buf.take off ++ data).length = off + data.length := by simp; omega
  simp only [readBytes, writeBytes, ← List.append_assoc]
  rw [show roff = (off + data.length) + (roff - (off + data.length)) by omega,
    ← hd, List.drop_append, List.drop_drop, hd]

theorem readBytes_append_mid (a b c : List Nat) (k len : Nat)
    (h : k + len ≤ b.length) :
    readBytes (a ++ b ++ c) (a.length + k) len = readBytes b k len := by
  simp only [readBytes, List.append_assoc]
  rw [← List.drop_drop, List.drop_left, List.drop_append_of_le_length (by omega),
    List.take_append_of_le_length (by simp; omega)]

@[simp] theorem length_le16 (v : Nat) : (le16 v).length = 2 := rfl

@[simp] theorem length_le32 (v : Nat) : (le32 v).length = 4 := rfl

@[simp] theorem length_le64 (v : Nat) : (le64 v).length = 8 := rfl

@[simp] theorem length_bcacheSbMagic : bcacheSbMagic.length = 16 := rfl

theorem readBytes_image (sb tail : List Nat) (k len : Nat) (h : k + len ≤ sb.length) :
    readBytes (List.replicate (8 * 512) 0 ++ sb ++ tail) (8 * 512 + k) len =
      readBytes sb k len := by
  have hr : (List.replicate (8 * 512) 0 : List Nat).length = 8 * 512 :=
    List.length_replicate (8 * 512) 0
  have := readBytes_append_mid (List.replicate (8 * 512) 0) sb tail k len h
  rwa [hr] at this

theorem bcacheSbBase_reads (v f : Nat) (devUuid setUuid : List Nat)
    (hdu : devUuid.length = 16) (hsu : setUuid.length = 16) :
    readBytes (bcacheSbBase v f devUuid setUuid) 16 8 = le64 v ∧
    readBytes (bcacheSbBase v f devUuid setUuid) 24 16 = bcacheSbMagic ∧
    readBytes (bcacheSbBase v f devUuid setUuid) 56 16 = setUuid ∧
    (bcacheSbBase v f devUuid setUuid).length = 208 := by
  unfold bcacheSbBase
  have l0 : (List.replicate 208 0 : List Nat).length = 208 := List.length_replicate 208 0
  have l1 := length_writeBytes (List.replicate 208 0) (le64 8) 8
    (by rw [l0]; simp only [length_le64]; omega)
  rw [l0] at l1
  have l2 := length_writeBytes _ (le64 v) 16 (by rw [l1]; simp only [length_le64]; omega)
  rw [l1] at l2
  have l3 := length_writeBytes _ bcacheSbMagic 24
    (by rw [l2]; simp only [length_bcacheSbMagic]; omega)
  rw [l2] at l3
  have l4 := length_writeBytes _ devUuid 40 (by rw [l3, hdu]; omega)
  rw [l3] at l4
  have l5 := length_writeBytes _ setUuid 56 (by rw [l4, hsu]; omega)
  rw [l4] at l5
  have l6 := length_writeBytes _ (le64 f) 104 (by rw [l5]; simp only [length_le64]; omega)
  rw [l5] at l6
  refine ⟨?_, ?_, ?_, l6⟩
  · rw [readBytes_writeBytes_before _ _ 104 16 8 (by omega) (by omega),
      readBytes_writeBytes_before _ _ 56 16 8 (by omega) (by omega),
      readBytes_writeBytes_before _ _ 40 16 8 (by omega) (by omega),
      readBytes_writeBytes_before _ _ 24 16 8 (by omega) (by omega)]
    exact readBytes_writeBytes_self (writeBytes (List.replicate 208 0) 8 (le64 8))
      (le64 v) 16 (by rw [l1]; simp only [length_le64]; omega)
  · rw [readBytes_writeBytes_before _ _ 104 24 16 (by omega) (by omega),
      readBytes_writeBytes_before _ _ 56 24 16 (by omega) (by omega),
      readBytes_writeBytes_before _ _ 40 24 16 (by omega) (by omega)]
    exact readBytes_writeBytes_self (writeBytes (writeBytes (List.replicate 208 0) 8
      (le64 8)) 16 (le64 v)) bcacheSbMagic 24
      (by rw [l2]; simp only [length_bcacheSbMagic]; omega)
  · rw [readBytes_writeBytes_before _ _ 104 56 16 (by omega) (by omega)]
    have := readBytes_writeBytes_self (writeBytes (writeBytes (writeBytes (writeBytes
      (List.replicate 208 0) 8 (le64 8)) 16 (le64 v)) 24 bcacheSbMagic) 40 devUuid)
      setUuid 56 (by rw [l4, hsu]; omega)
    rw [hsu] at this
    exact this

theorem bcacheSbTail_reads (b : Bool) (bs bu : Nat) (sb7 : List Nat) (k len : Nat)
    (hlen : sb7.length = 208) (hk : 16 ≤ k) (hkl : k + len ≤ 192) :
    readBytes (bcacheSbTail b bs bu sb7) k len = readBytes sb7 k len ∧
    (bcacheSbTail b bs bu sb7).length = 208 := by
  have m1 := length_writeBytes sb7 (le16 bs) 192 (by rw [hlen]; simp only [length_le16]; omega)
  rw [hlen] at m1
  cases b with
  | true =>
    simp only [bcacheSbTail, Bool.cond_true]
    have m2 := length_writeBytes _ (le16 bu) 194 (by rw [m1]; simp only [length_le16]; omega)
    rw [m1] at m2
    have m3 := length_writeBytes _ (le16 (23 / bu + 1)) 202
      (by rw [m2]; simp only [length_le16]; omega)
    rw [m2] at m3
    have m4 := length_writeBytes _ (le64 (crc64we (List.drop 8 (writeBytes (writeBytes
      (writeBytes sb7 192 (le16 bs)) 194 (le16 bu)) 202 (le16 (23 / bu + 1)))))) 0
      (by rw [m3]; simp only [length_le64]; omega)
    rw [m3] at m4
    refine ⟨?_, m4⟩
    rw [readBytes_writeBytes_after _ _ 0 k len (by simp only [length_le64]; omega)
        (by rw [m3]; simp only [length_le64]; omega),
      readBytes_writeBytes_before _ _ 202 k len (by omega) (by omega),
      readBytes_writeBytes_before _ _ 194 k len (by omega) (by omega),
      readBytes_writeBytes_before _ _ 192 k len (by omega) (by omega)]
  | false =>
    simp only [bcacheSbTail, Bool.cond_false]
    have m2 := length_writeBytes _ (le16 bu) 194 (by rw [m1]; simp only [length_le16]; omega)
    rw [m1] at m2
    have m2b := length_writeBytes _ (le16 1) 196 (by rw [m2]; simp only [length_le16]; omega)
    rw [m2] at m2b
    have m3 := length_writeBytes _ (le16 (23 / bu + 1)) 204
      (by rw [m2b]; simp only [length_le16]; omega)
    rw [m2b] at m3
    have m4 := length_writeBytes _ (le64 (crc64we (List.drop 8 (writeBytes (writeBytes
      (writeBytes (writeBytes sb7 192 (le16 bs)) 194 (le16 bu)) 196 (le16 1)) 204
      (le16 (23 / bu + 1)))))) 0 (by rw [m3]; simp only [length_le64]; omega)
    rw [m3] at m4
    refine ⟨?_, m4⟩
    rw [readBytes_writeBytes_after _ _ 0 k len (by simp only [length_le64]; omega)
        (by rw [m3]; simp only [length_le64]; omega),
      readBytes_writeBytes_before _ _ 204 k len (by omega) (by omega),
      readBytes_writeBytes_before _ _ 196 k len (by omega) (by omega),
      readBytes_writeBytes_before _ _ 194 k len (by omega) (by omega),
      readBytes_writeBytes_before _ _ 192 k len (by omega) (by omega)]

theorem sb7_backing_some_reads (dOff : Nat) (du su : List Nat)
    (hdu : du.length = 16) (hsu : su.length = 16) :
    readBytes (writeBytes (writeBytes (bcacheSbBase 1 1 du su) 16 (le64 4)) 184
      (le64 dOff)) 16 8 = le64 4 ∧
    readBytes (writeBytes (writeBytes (bcacheSbBase 1 1 du su) 16 (le64 4)) 184
      (le64 dOff)) 24 16 = bcacheSbMagic ∧
    readBytes (writeBytes (writeBytes (bcacheSbBase 1 1 du su) 16 (le64 4)) 184
      (le64 dOff)) 56 16 = su ∧
    (writeBytes (writeBytes (bcacheSbBase 1 1 du su) 16 (le64 4)) 184
      (le64 dOff)).length = 208 := by
  obtain ⟨b16, b24, b56, blen⟩ := bcacheSbBase_reads 1 1 du su hdu hsu
  have li1 := length_writeBytes (bcacheSbBase 1 1 du su) (le64 4) 16
    (by rw [blen]; simp only [length_le64]; omega)
  rw [blen] at li1
  have li2 := length_writeBytes _ (le64 dOff) 184 (by rw [li1]; simp only [length_le64]; omega)
  rw [li1] at li2
  refine ⟨?_, ?_, ?_, li2⟩
  · rw [readBytes_writeBytes_before _ _ 184 16 8 (by omega) (by omega)]
    exact readBytes_writeBytes_self (bcacheSbBase 1 1 du su) (le64 4) 16
      (by rw [blen]; simp only [length_le64]; omega)
  · rw [readBytes_writeBytes_before _ _ 184 24 16 (by omega) (by omega),
      readBytes_writeBytes_after _ _ 16 24 16 (by simp only [length_le64]; omega)
        (by rw [blen]; simp only [length_le64]; omega)]
    exact b24
  · rw [readBytes_writeBytes_before _ _ 184 56 16 (by omega) (by omega),
      readBytes_writeBytes_after _ _ 16 56 16 (by simp only [length_le64]; omega)
        (by rw [blen]; simp only [length_le64]; omega)]
    exact b56

theorem sb7_cache_reads (nb : Nat) (du su : List Nat)
    (hdu : du.length = 16) (hsu : su.length = 16) :
    readBytes (writeBytes (bcacheSbBase 0 0 du su) 184 (le64 nb)) 16 8 = le64 0 ∧
    readBytes (writeBytes (bcacheSbBase 0 0 du su) 184 (le64 nb)) 24 16 = bcacheSbMagic ∧
    readBytes (writeBytes (bcacheSbBase 0 0 du su) 184 (le64 nb)) 56 16 = su ∧
    (writeBytes (bcacheSbBase 0 0 du su) 184 (le64 nb)).length = 208 := by
  obtain ⟨b16, b24, b56, blen⟩ := bcacheSbBase_reads 0 0 du su hdu hsu
  have li1 := length_writeBytes (bcacheSbBase 0 0 du su) (le64 nb) 184
    (by rw [blen]; simp only [length_le64]; omega)
  rw [blen] at li1
  refine ⟨?_, ?_, ?_, li1⟩
  · rw [readBytes_writeBytes_before _ _ 184 16 8 (by omega) (by omega)]
    exact b16
  · rw [readBytes_writeBytes_before _ _ 184 24 16 (by omega) (by omega)]
    exact b24
  · rw [readBytes_writeBytes_before _ _ 184 56 16 (by omega) (by omega)]
    exact b56

theorem bcacheImage_reads (b : Bool) (bs bu k len : Nat) (sb7 : List Nat)
    (hlen : sb7.length = 208) (hk : 16 ≤ k) (hkl : k + len ≤ 192) :
    readBytes (List.replicate (8 * 512) 0 ++ bcacheSbTail b bs bu sb7 ++
      List.replicate (256 * 8) 0) (8 * 512 + k) len = readBytes sb7 k len := by
  obtain ⟨hr, hl⟩ := bcacheSbTail_reads b bs bu sb7 k len hlen hk hkl
  rw [readBytes_image _ _ k len (by rw [hl]; omega), hr]

theorem bcacheGetSetUuid_of_not_cache (img : List Nat)
    (h : bcacheIsCacheDevice img = false) :
    bcacheGetSetUuid img = .error .preconditionError := by
  simp only [bcacheGetSetUuid, h]
  rfl

theorem bcacheGetSetUuid_of_cache (img : List Nat)
    (h : bcacheIsCacheDevice img = true) :
    bcacheGetSetUuid img = .ok (readBytes img (8 * 512 + 56) 16) := by
  simp only [bcacheGetSetUuid, h]
  rfl

theorem leToNat_le64_zero : leToNat (le64 0) = 0 := rfl

theorem leToNat_le64_one : leToNat (le64 1) = 1 := rfl

theorem leToNat_le64_four : leToNat (le64 4) = 4 := rfl

/-- C1: bcache superblock round-trip.  After `bcacheMakeDevice` writes a
superblock with role `role` (true = backing device, false = cache device),
`_bcacheIsBackingDeviceOrCachDevice` returns true for the same role and false
for the opposite role, and `bcacheGetSetUuid` returns exactly the set uuid the
encoder generated and returned when the role was cache, while on a
backing-device superblock it fails with `PreconditionError`. -/
theorem bcacheMakeDevice_roundtrip
    (devSize : Nat) (role : Bool) (blockSizeOpt bucketSizeOpt dataOffsetOpt : Option Nat)
    (devUuid setUuid : List Nat) (sectorSize : Nat) (img du su : List Nat)
    (hdu : devUuid.length = 16) (hsu : setUuid.length = 16)
    (h : bcacheMakeDevice devSize role blockSizeOpt bucketSizeOpt dataOffsetOpt
      devUuid setUuid sectorSize = .ok (img, du, su)) :
    bcacheIsBackingDeviceOrCachDevice img role = true ∧
    bcacheIsBackingDeviceOrCachDevice img (!role) = false ∧
    su = setUuid ∧
    (role = false → bcacheGetSetUuid img = .ok setUuid) ∧
    (role = true → bcacheGetSetUuid img = .error .preconditionError) := by
  cases role with
  | true =>
    cases dataOffsetOpt with
    | some dOff =>
      simp only [bcacheMakeDevice, Bool.cond_true] at h
      split at h
      · exact Except.noConfusion h
      · simp only [if_true, Except.ok.injEq, Prod.mk.injEq] at h
        obtain ⟨himg, hduEq, hsuEq⟩ := h
        subst himg
        obtain ⟨s16, s24, s56, slen⟩ := sb7_backing_some_reads dOff devUuid setUuid hdu hsu
        have htrue : bcacheIsBackingDeviceOrCachDevice (List.replicate (8 * 512) 0 ++
            bcacheSbTail true (blockSizeOpt.getD (sectorSize / 512))
            (bucketSizeOpt.getD 1024) (writeBytes (writeBytes
            (bcacheSbBase 1 1 devUuid setUuid) 16 (le64 4)) 184 (le64 dOff)) ++
            List.replicate (256 * 8) 0) true = true := by
          simp only [bcacheIsBackingDeviceOrCachDevice]
          rw [bcacheImage_reads true _ _ 24 16 _ slen (by omega) (by omega), s24,
            bcacheImage_reads true _ _ 16 8 _ slen (by omega) (by omega), s16]
          simp [leToNat_le64_four]
        have hfalse : bcacheIsBackingDeviceOrCachDevice (List.replicate (8 * 512) 0 ++
            bcacheSbTail true (blockSizeOpt.getD (sectorSize / 512))
            (bucketSizeOpt.getD 1024) (writeBytes (writeBytes
            (bcacheSbBase 1 1 devUuid setUuid) 16 (le64 4)) 184 (le64 dOff)) ++
            List.replicate (256 * 8) 0) false = false := by
          simp only [bcacheIsBackingDeviceOrCachDevice]
          rw [bcacheImage_reads true _ _ 24 16 _ slen (by omega) (by omega), s24,
            bcacheImage_reads true _ _ 16 8 _ slen (by omega) (by omega), s16]
          simp [leToNat_le64_four]
        refine ⟨htrue, by simp only [Bool.not_true]; exact hfalse, hsuEq.symm,
          fun hc => Bool.noConfusion hc, fun _ => ?_⟩
        exact bcacheGetSetUuid_of_not_cache _ hfalse
    | none =>
      simp only [bcacheMakeDevice, Bool.cond_true] at h
      split at h
      · exact Except.noConfusion h
      · simp only [if_true, Except.ok.injEq, Prod.mk.injEq] at h
        obtain ⟨himg, hduEq, hsuEq⟩ := h
        subst himg
        obtain ⟨s16, s24, s56, slen⟩ := bcacheSbBase_reads 1 1 devUuid setUuid hdu hsu
        have htrue : bcacheIsBackingDeviceOrCachDevice (List.replicate (8 * 512) 0 ++
            bcacheSbTail true (blockSizeOpt.getD (sectorSize / 512))
            (bucketSizeOpt.getD 1024) (bcacheSbBase 1 1 devUuid setUuid) ++
            List.replicate (256 * 8) 0) true = true := by
          simp only [bcacheIsBackingDeviceOrCachDevice]
          rw [bcacheImage_reads true _ _ 24 16 _ slen (by omega) (by omega), s24,
            bcacheImage_reads true _ _ 16 8 _ slen (by omega) (by omega), s16]
          simp [leToNat_le64_one]
        have hfalse : bcacheIsBackingDeviceOrCachDevice (List.replicate (8 * 512) 0 ++
            bcacheSbTail true (blockSizeOpt.getD (sectorSize / 512))
            (bucketSizeOpt.getD 1024) (bcacheSbBase 1 1 devUuid setUuid) ++
            List.replicate (256 * 8) 0) false = false := by
          simp only [bcacheIsBackingDeviceOrCachDevice]
          rw [bcacheImage_reads true _ _ 24 16 _ slen (by omega) (by omega), s24,
            bcacheImage_reads true _ _ 16 8 _ slen (by omega) (by omega), s16]
          simp [leToNat_le64_one]
        refine ⟨htrue, by simp only [Bool.not_true]; exact hfalse, hsuEq.symm,
          fun hc => Bool.noConfusion hc, fun _ => ?_⟩
        exact bcacheGetSetUuid_of_not_cache _ hfalse
  | false =>
    simp only [bcacheMakeDevice, Bool.cond_false, Bool.false_eq_true, if_false] at h
    split at h
    · exact Except.noConfusion h
    · split at h
      · exact Except.noConfusion h
      · simp only [Except.ok.injEq, Prod.mk.injEq] at h
        obtain ⟨himg, hduEq, hsuEq⟩ := h
        subst himg
        rename_i sb7 heq
        split at heq
        · exact Except.noConfusion heq
        injection heq with heq2
        subst heq2
        obtain ⟨s16, s24, s56, slen⟩ := sb7_cache_reads
          (devSize / 512 / bucketSizeOpt.getD 1024) devUuid setUuid hdu hsu
        have hcache : bcacheIsBackingDeviceOrCachDevice (List.replicate (8 * 512) 0 ++
            bcacheSbTail false (blockSizeOpt.getD (sectorSize / 512))
            (bucketSizeOpt.getD 1024) (writeBytes (bcacheSbBase 0 0 devUuid setUuid)
            184 (le64 (devSize / 512 / bucketSizeOpt.getD 1024))) ++
            List.replicate (256 * 8) 0) false = true := by
          simp only [bcacheIsBackingDeviceOrCachDevice]
          rw [bcacheImage_reads false _ _ 24 16 _ slen (by omega) (by omega), s24,
            bcacheImage_reads false _ _ 16 8 _ slen (by omega) (by omega), s16]
          simp [leToNat_le64_zero]
        have hback : bcacheIsBackingDeviceOrCachDevice (List.replicate (8 * 512) 0 ++
            bcacheSbTail false (blockSizeOpt.getD (sectorSize / 512))
            (bucketSizeOpt.getD 1024) (writeBytes (bcacheSbBase 0 0 devUuid setUuid)
            184 (le64 (devSize / 512 / bucketSizeOpt.getD 1024))) ++
            List.replicate (256 * 8) 0) true = false := by
          simp only [bcacheIsBackingDeviceOrCachDevice]
          rw [bcacheImage_reads false _ _ 24 16 _ slen (by omega) (by omega), s24,
            bcacheImage_reads false _ _ 16 8 _ slen (by omega) (by omega), s16]
          simp [leToNat_le64_zero]
        refine ⟨hcache, by simp only [Bool.not_false]; exact hback, hsuEq.symm,
          fun _ => ?_, fun hc => Bool.noConfusion hc⟩
        rw [bcacheGetSetUuid_of_cache _ hcache,
          bcacheImage_reads false _ _ 56 16 _ slen (by omega) (by omega), s56]

/-- Witness for C1: instantiates the round-trip theorem on a concrete cache
device (64 GiB-scaled size 67108864 bytes, block size 1, bucket size 1024,
concrete 16-byte uuids). -/
theorem bcacheMakeDevice_roundtrip_witness :
    bcacheIsBackingDeviceOrCachDevice bcacheWitnessImg false = true ∧
    bcacheIsBackingDeviceOrCachDevice bcacheWitnessImg (!false) = false ∧
    List.replicate 16 2 = List.replicate 16 2 ∧
    (false = false → bcacheGetSetUuid bcacheWitnessImg = .ok (List.replicate 16 2)) ∧
    (false = true → bcacheGetSetUuid bcacheWitnessImg = .error .preconditionError) :=
  bcacheMakeDevice_roundtrip 67108864 false (some 1) (some 1024) none
    (List.replicate 16 1) (List.replicate 16 2) 512 bcacheWitnessImg
    (List.replicate 16 1) (List.replicate 16 2) rfl rfl rfl

/-- C5: `bcacheMakeDevice` defaults and precondition failures.  An unset
bucketSize behaves exactly as bucketSize = 1024 sectors and an unset blockSize
behaves exactly as blockSize = device sector size / 512; the operation fails
with `ConfigError` whenever bucketSize < blockSize and, for a cache device,
whenever the device holds fewer than 0x80 buckets.  On these failures the
result is an error carrying no device image: in the source both `raise` sites
precede the `open(devPath, "r+b")`, so nothing is written. -/
theorem bcacheMakeDevice_defaults_and_failures :
    (∀ devSize role blockSizeOpt dataOffsetOpt devUuid setUuid sectorSize,
      bcacheMakeDevice devSize role blockSizeOpt none dataOffsetOpt
        devUuid setUuid sectorSize =
      bcacheMakeDevice devSize role blockSizeOpt (some 1024) dataOffsetOpt
        devUuid setUuid sectorSize) ∧
    (∀ devSize role bucketSizeOpt dataOffsetOpt devUuid setUuid sectorSize,
      bcacheMakeDevice devSize role none bucketSizeOpt dataOffsetOpt
        devUuid setUuid sectorSize =
      bcacheMakeDevice devSize role (some (sectorSize / 512)) bucketSizeOpt
        dataOffsetOpt devUuid setUuid sectorSize) ∧
    (∀ devSize role blockSize bucketSize dataOffsetOpt devUuid setUuid sectorSize,
      bucketSize < blockSize →
      bcacheMakeDevice devSize role (some blockSize) (some bucketSize) dataOffsetOpt
        devUuid setUuid sectorSize = .error .configError) ∧
    (∀ devSize blockSize bucketSize dataOffsetOpt devUuid setUuid sectorSize,
      ¬ bucketSize < blockSize → devSize / 512 / bucketSize < 0x80 →
      bcacheMakeDevice devSize false (some blockSize) (some bucketSize) dataOffsetOpt
        devUuid setUuid sectorSize = .error .configError) := by
  refine ⟨fun _ _ _ _ _ _ _ => rfl, fun _ _ _ _ _ _ _ => rfl, ?_, ?_⟩
  · intro devSize role blockSize bucketSize dataOffsetOpt devUuid setUuid sectorSize hlt
    simp only [bcacheMakeDevice, Option.getD_some]
    rw [if_pos hlt]
  · intro devSize blockSize bucketSize dataOffsetOpt devUuid setUuid sectorSize hge hnb
    simp only [bcacheMakeDevice, Option.getD_some, Bool.cond_false, Bool.false_eq_true,
      if_false]
    rw [if_neg hge, if_pos hnb]

/-- Witness for C5: concrete failing parameter sets for both `ConfigError`
conditions. -/
theorem bcacheMakeDevice_defaults_and_failures_witness :
    bcacheMakeDevice 0 true (some 2) (some 1) none [] [] 0 = .error .configError ∧
    bcacheMakeDevice 0 false (some 1) (some 1) none [] [] 0 = .error .configError :=
  ⟨bcacheMakeDevice_defaults_and_failures.2.2.1 0 true 2 1 none [] [] 0 (by decide),
   bcacheMakeDevice_defaults_and_failures.2.2.2 0 1 1 none [] [] 0 (by decide) (by decide)⟩

theorem charDigit_ofNat (d : Nat) (h : d < 10) :
    (Char.ofNat (48 + d)).toNat = 48 + d ∧ charIsDigit (Char.ofNat (48 + d)) = true := by
  interval_cases d <;> exact ⟨by decide, by decide⟩

theorem natDigitsAux_spec : ∀ fuel n, n < fuel →
    (natDigitsAux fuel n).all charIsDigit = true ∧ natDigitsAux fuel n ≠ [] ∧
      digitsToNat (natDigitsAux fuel n) = n := by
  intro fuel
  induction fuel with
  | zero => intro n h; omega
  | succ f ih =>
    intro n hn
    by_cases h : n < 10
    · rw [natDigitsAux, if_pos h]
      obtain ⟨ht, hd⟩ := charDigit_ofNat n h
      refine ⟨by simp [hd], by simp, ?_⟩
      simp [digitsToNat, ht]
    · rw [natDigitsAux, if_neg h]
      obtain ⟨ih1, ih2, ih3⟩ := ih (n / 10) (by omega)
      obtain ⟨ht, hd⟩ := charDigit_ofNat (n % 10) (Nat.mod_lt n (by omega))
      refine ⟨by simp [List.all_append, ih1, hd], by simp, ?_⟩
      simp only [digitsToNat, List.foldl_append] at ih3 ⊢
      simp only [List.foldl_cons, List.foldl_nil, ht]
      omega

theorem natDigits_spec (n : Nat) :
    (natDigits n).all charIsDigit = true ∧ natDigits n ≠ [] ∧
      digitsToNat (natDigits n) = n :=
  natDigitsAux_spec (n + 1) n (Nat.lt_succ_self n)

theorem takeWhile_all_append (p : Char → Bool) (xs ys : List Char)
    (h : xs.all p = true) : (xs ++ ys).takeWhile p = xs ++ ys.takeWhile p := by
  induction xs with
  | nil => simp
  | cons x t ihx =>
    simp only [List.all_cons, Bool.and_eq_true] at h
    simp [List.takeWhile_cons, h.1, ihx h.2]

theorem dropWhile_all_append (p : Char → Bool) (xs ys : List Char)
    (h : xs.all p = true) : (xs ++ ys).dropWhile p = ys.dropWhile p := by
  induction xs with
  | nil => simp
  | cons x t ihx =>
    simp only [List.all_cons, Bool.and_eq_true] at h
    simp [List.dropWhile_cons, h.1, ihx h.2]

theorem matchAlphaDisk_no_pre (pre cs : List Char) (h : cs.take pre.length ≠ pre) :
    matchAlphaDisk pre cs = false := by
  unfold matchAlphaDisk
  rw [decide_eq_false h]
  rfl

theorem matchAlphaParti_no_pre (pre cs : List Char) (h : cs.take pre.length ≠ pre) :
    matchAlphaParti pre cs = none := by
  unfold matchAlphaParti
  rw [if_neg h]

theorem matchNvmeDisk_no_pre (cs : List Char) (h : cs.take 9 ≠ "/dev/nvme".toList) :
    matchNvmeDisk cs = false := by
  unfold matchNvmeDisk
  rw [decide_eq_false h]
  rfl

theorem matchNvmeParti_no_pre (cs : List Char) (h : cs.take 9 ≠ "/dev/nvme".toList) :
    matchNvmeParti cs = none := by
  unfold matchNvmeParti
  rw [if_neg h]

theorem matchAlphaParti_append (pre : List Char) (c : Char) (hc : charIsLower c = true)
    (id : Nat) :
    matchAlphaParti pre (pre ++ [c] ++ natDigits id) = some (pre ++ [c], id) := by
  obtain ⟨hall, hne, hval⟩ := natDigits_spec id
  unfold matchAlphaParti
  have hemp : (natDigits id).isEmpty = false := by
    cases hni : natDigits id with
    | nil => exact absurd hni hne
    | cons a t => rfl
  rw [List.append_assoc, if_pos (List.take_left pre _), List.drop_left,
    List.singleton_append]
  simp [hc, hemp, hall, hval]

theorem matchNvmeParti_append (d1 d2 : List Char) (h1 : d1 ≠ [])
    (h1d : d1.all charIsDigit = true) (h2 : d2 ≠ [])
    (h2d : d2.all charIsDigit = true) (id : Nat) :
    matchNvmeParti ("/dev/nvme".toList ++ (d1 ++ 'n' :: (d2 ++ 'p' :: natDigits id))) =
      some ("/dev/nvme".toList ++ d1 ++ 'n' :: d2, id) := by
  obtain ⟨hall, hne, hval⟩ := natDigits_spec id
  have hnd : charIsDigit 'n' = false := by decide
  have hpd : charIsDigit 'p' = false := by decide
  have hemp1 : d1.isEmpty = false := by
    cases d1 with
    | nil => exact absurd rfl h1
    | cons a t => rfl
  have hemp2 : d2.isEmpty = false := by
    cases d2 with
    | nil => exact absurd rfl h2
    | cons a t => rfl
  have hempD : (natDigits id).isEmpty = false := by
    cases hni : natDigits id with
    | nil => exact absurd hni hne
    | cons a t => rfl
  have htake : List.take 9 ("/dev/nvme".toList ++ (d1 ++ 'n' :: (d2 ++ 'p' :: natDigits id))) =
      "/dev/nvme".toList := List.take_left' rfl
  have hdrop : List.drop 9 ("/dev/nvme".toList ++ (d1 ++ 'n' :: (d2 ++ 'p' :: natDigits id))) =
      d1 ++ 'n' :: (d2 ++ 'p' :: natDigits id) := List.drop_left' rfl
  have ht1 : List.takeWhile charIsDigit (d1 ++ 'n' :: (d2 ++ 'p' :: natDigits id)) = d1 := by
    rw [takeWhile_all_append _ _ _ h1d, List.takeWhile_cons, hnd]
    simp
  have hd1 : List.dropWhile charIsDigit (d1 ++ 'n' :: (d2 ++ 'p' :: natDigits id)) =
      'n' :: (d2 ++ 'p' :: natDigits id) := by
    rw [dropWhile_all_append _ _ _ h1d, List.dropWhile_cons, hnd]
    simp
  have ht2 : List.takeWhile charIsDigit (d2 ++ 'p' :: natDigits id) = d2 := by
    rw [takeWhile_all_append _ _ _ h2d, List.takeWhile_cons, hpd]
    simp
  have hd2 : List.dropWhile charIsDigit (d2 ++ 'p' :: natDigits id) =
      'p' :: natDigits id := by
    rw [dropWhile_all_append _ _ _ h2d, List.dropWhile_cons, hpd]
    simp
  unfold matchNvmeParti
  rw [if_pos htake]
  simp [hdrop, ht1, hd1, ht2, hd2, hemp1, hemp2, hempD, hall, hval]

theorem matchAlphaDisk_decomp (pre cs : List Char) (h : matchAlphaDisk pre cs = true) :
    ∃ c, cs = pre ++ [c] ∧ charIsLower c = true := by
  unfold matchAlphaDisk at h
  rw [Bool.and_eq_true] at h
  obtain ⟨h1, h2⟩ := h
  have h1' := of_decide_eq_true h1
  split at h2
  · rename_i c heq
    exact ⟨c, by rw [← List.take_append_drop pre.length cs, h1', heq], h2⟩
  · exact Bool.noConfusion h2

theorem matchNvmeDisk_decomp (cs : List Char) (h : matchNvmeDisk cs = true) :
    ∃ d1 d2, cs = "/dev/nvme".toList ++ d1 ++ 'n' :: d2 ∧ d1 ≠ [] ∧
      d1.all charIsDigit = true ∧ d2 ≠ [] ∧ d2.all charIsDigit = true := by
  unfold matchNvmeDisk at h
  rw [Bool.and_eq_true] at h
  obtain ⟨h1, h2⟩ := h
  have h1' := of_decide_eq_true h1
  simp only [Bool.and_eq_true] at h2
  obtain ⟨h2a, h2b⟩ := h2
  split at h2b
  · rename_i r3 heq
    rw [Bool.and_eq_true] at h2b
    refine ⟨(cs.drop 9).takeWhile charIsDigit, r3, ?_, ?_, List.all_takeWhile, ?_, h2b.2⟩
    · rw [List.append_assoc, ← heq, List.takeWhile_append_dropWhile, ← h1',
        List.take_append_drop]
    · intro hn
      rw [hn] at h2a
      exact absurd h2a (by decide)
    · intro hn
      rw [hn] at h2b
      exact absurd h2b.1 (by decide)
  · exact Bool.noConfusion h2b

/-- C9: device-path round-trip.  For every disk path matching one of the four
supported naming patterns and every partition id,
`devPathPartitionToDiskAndPartitionId (devPathDiskToPartition disk id)`
returns `(disk, id)`, and `devPathPartitionToDisk` of the same composed path
returns the original disk path. -/
theorem devPath_roundtrip (diskDevPath : String) (partitionId : Nat)
    (h : matchAlphaDisk "/dev/sd".toList diskDevPath.toList = true ∨
         matchAlphaDisk "/dev/xvd".toList diskDevPath.toList = true ∨
         matchAlphaDisk "/dev/vd".toList diskDevPath.toList = true ∨
         matchNvmeDisk diskDevPath.toList = true) :
    ∃ p, devPathDiskToPartition diskDevPath partitionId = some p ∧
      devPathPartitionToDiskAndPartitionId p = some (diskDevPath, partitionId) ∧
      devPathPartitionToDisk p = some diskDevPath := by
  rcases h with hsd | hxvd | hvd | hnvme
  · obtain ⟨c, hcs, hc⟩ := matchAlphaDisk_decomp _ _ hsd
    have hplist : (diskDevPath ++ String.mk (natDigits partitionId)).toList =
        "/dev/sd".toList ++ [c] ++ natDigits partitionId := by
      show diskDevPath.toList ++ natDigits partitionId = _
      rw [hcs]
    have hparse : devPathPartitionToDiskAndPartitionId
        (diskDevPath ++ String.mk (natDigits partitionId)) =
        some (diskDevPath, partitionId) := by
      simp only [devPathPartitionToDiskAndPartitionId]
      rw [hplist, matchAlphaParti_append _ c hc partitionId, ← hcs]
      rfl
    refine ⟨_, ?_, hparse, ?_⟩
    · simp only [devPathDiskToPartition]
      rw [if_pos hsd]
    · simp only [devPathPartitionToDisk]
      rw [hparse]
  · obtain ⟨c, hcs, hc⟩ := matchAlphaDisk_decomp _ _ hxvd
    have hsdD : matchAlphaDisk "/dev/sd".toList diskDevPath.toList = false := by
      apply matchAlphaDisk_no_pre
      rw [hcs, List.take_append_of_le_length (by decide)]
      decide
    have hplist : (diskDevPath ++ String.mk (natDigits partitionId)).toList =
        "/dev/xvd".toList ++ [c] ++ natDigits partitionId := by
      show diskDevPath.toList ++ natDigits partitionId = _
      rw [hcs]
    have hsdP : matchAlphaParti "/dev/sd".toList
        ((diskDevPath ++ String.mk (natDigits partitionId)).toList) = none := by
      apply matchAlphaParti_no_pre
      rw [hplist, List.append_assoc, List.take_append_of_le_length (by decide)]
      decide
    have hparse : devPathPartitionToDiskAndPartitionId
        (diskDevPath ++ String.mk (natDigits partitionId)) =
        some (diskDevPath, partitionId) := by
      simp only [devPathPartitionToDiskAndPartitionId]
      rw [hsdP, hplist, matchAlphaParti_append _ c hc partitionId, ← hcs]
      rfl
    refine ⟨_, ?_, hparse, ?_⟩
    · simp only [devPathDiskToPartition, hsdD, Bool.false_eq_true, if_false]
      rw [if_pos hxvd]
    · simp only [devPathPartitionToDisk]
      rw [hparse]
  · obtain ⟨c, hcs, hc⟩ := matchAlphaDisk_decomp _ _ hvd
    have hsdD : matchAlphaDisk "/dev/sd".toList diskDevPath.toList = false := by
      apply matchAlphaDisk_no_pre
      rw [hcs, List.take_append_of_le_length (by decide)]
      decide
    have hxvdD : matchAlphaDisk "/dev/xvd".toList diskDevPath.toList = false := by
      apply matchAlphaDisk_no_pre
      rw [hcs, List.take_of_length_le (by simp)]
      intro he
      simp at he
    have hplist : (diskDevPath ++ String.mk (natDigits partitionId)).toList =
        "/dev/vd".toList ++ [c] ++ natDigits partitionId := by
      show diskDevPath.toList ++ natDigits partitionId = _
      rw [hcs]
    have hsdP : matchAlphaParti "/dev/sd".toList
        ((diskDevPath ++ String.mk (natDigits partitionId)).toList) = none := by
      apply matchAlphaParti_no_pre
      rw [hplist, List.append_assoc, List.take_append_of_le_length (by decide)]
      decide
    have hxvdP : matchAlphaParti "/dev/xvd".toList
        ((diskDevPath ++ String.mk (natDigits partitionId)).toList) = none := by
      apply matchAlphaParti_no_pre
      rw [hplist, List.append_assoc,
        show ("/dev/xvd".toList.length) = "/dev/vd".toList.length + 1 from rfl,
        List.take_append]
      intro he
      simp at he
    have hparse : devPathPartitionToDiskAndPartitionId
        (diskDevPath ++ String.mk (natDigits partitionId)) =
        some (diskDevPath, partitionId) := by
      simp only [devPathPartitionToDiskAndPartitionId]
      rw [hsdP, hxvdP, hplist, matchAlphaParti_append _ c hc partitionId, ← hcs]
      rfl
    refine ⟨_, ?_, hparse, ?_⟩
    · simp only [devPathDiskToPartition, hsdD, hxvdD, Bool.false_eq_true, if_false]
      rw [if_pos hvd]
    · simp only [devPathPartitionToDisk]
      rw [hparse]
  · obtain ⟨d1, d2, hcs, h1, h1d, h2, h2d⟩ := matchNvmeDisk_decomp _ hnvme
    have hcs' : diskDevPath.toList = "/dev/nvme".toList ++ (d1 ++ 'n' :: d2) := by
      rw [hcs, List.append_assoc]
    have hsdD : matchAlphaDisk "/dev/sd".toList diskDevPath.toList = false := by
      apply matchAlphaDisk_no_pre
      rw [hcs', List.take_append_of_le_length (by decide)]
      decide
    have hxvdD : matchAlphaDisk "/dev/xvd".toList diskDevPath.toList = false := by
      apply matchAlphaDisk_no_pre
      rw [hcs', List.take_append_of_le_length (by decide)]
      decide
    have hvdD : matchAlphaDisk "/dev/vd".toList diskDevPath.toList = false := by
      apply matchAlphaDisk_no_pre
      rw [hcs', List.take_append_of_le_length (by decide)]
      decide
    have hplist : (diskDevPath ++ "p" ++ String.mk (natDigits partitionId)).toList =
        "/dev/nvme".toList ++ (d1 ++ 'n' :: (d2 ++ 'p' :: natDigits partitionId)) := by
      show (diskDevPath.toList ++ ['p']) ++ natDigits partitionId = _
      rw [hcs]
      simp [List.append_assoc]
    have hsdP : matchAlphaParti "/dev/sd".toList
        ((diskDevPath ++ "p" ++ String.mk (natDigits partitionId)).toList) = none := by
      apply matchAlphaParti_no_pre
      rw [hplist, List.take_append_of_le_length (by decide)]
      decide
    have hxvdP : matchAlphaParti "/dev/xvd".toList
        ((diskDevPath ++ "p" ++ String.mk (natDigits partitionId)).toList) = none := by
      apply matchAlphaParti_no_pre
      rw [hplist, List.take_append_of_le_length (by decide)]
      decide
    have hvdP : matchAlphaParti "/dev/vd".toList
        ((diskDevPath ++ "p" ++ String.mk (natDigits partitionId)).toList) = none := by
      apply matchAlphaParti_no_pre
      rw [hplist, List.take_append_of_le_length (by decide)]
      decide
    have hparse : devPathPartitionToDiskAndPartitionId
        (diskDevPath ++ "p" ++ String.mk (natDigits partitionId)) =
        some (diskDevPath, partitionId) := by
      simp only [devPathPartitionToDiskAndPartitionId]
      rw [hsdP, hxvdP, hvdP, hplist,
        matchNvmeParti_append d1 d2 h1 h1d h2 h2d partitionId, ← hcs]
      rfl
    refine ⟨_, ?_, hparse, ?_⟩
    · simp only [devPathDiskToPartition, hsdD, hxvdD, hvdD, Bool.false_eq_true, if_false]
      rw [if_pos hnvme]
    · simp only [devPathPartitionToDisk]
      rw [hparse]

/-- Witness for C9: round-trip on the nvme disk `/dev/nvme0n1`, partition 7. -/
theorem devPath_roundtrip_witness :
    devPathDiskToPartition "/dev/nvme0n1" 7 = some "/dev/nvme0n1p7" ∧
    devPathPartitionToDiskAndPartitionId "/dev/nvme0n1p7" = some ("/dev/nvme0n1", 7) ∧
    devPathPartitionToDisk "/dev/nvme0n1p7" = some "/dev/nvme0n1" := by
  obtain ⟨p, h1, h2, h3⟩ :=
    devPath_roundtrip "/dev/nvme0n1" 7 (Or.inr (Or.inr (Or.inr (by decide))))
  have hd : devPathDiskToPartition "/dev/nvme0n1" 7 = some "/dev/nvme0n1p7" := by decide
  rw [hd] at h1
  injection h1 with h1
  subst h1
  exact ⟨hd, h2, h3⟩

/-- C10: classification totality.  `devPathIsDiskOrPartition` succeeds exactly
on the four disk patterns and four partition patterns (and hits its
`assert False` branch, modelled as `none`, on everything else);
`devPathPartitionToDiskAndPartitionId` succeeds exactly on the four partition
patterns; and `gptIsEspPartition` (which parses its argument through
`devPathPartitionToDiskAndPartitionId`) is defined exactly on those
partition-shaped paths. -/
theorem devPath_classification_total (p : String) (img : List Nat) :
    ((devPathIsDiskOrPartition p).isSome ↔
      (matchAlphaDisk "/dev/sd".toList p.toList = true ∨
       (matchAlphaParti "/dev/sd".toList p.toList).isSome = true ∨
       matchAlphaDisk "/dev/xvd".toList p.toList = true ∨
       (matchAlphaParti "/dev/xvd".toList p.toList).isSome = true ∨
       matchAlphaDisk "/dev/vd".toList p.toList = true ∨
       (matchAlphaParti "/dev/vd".toList p.toList).isSome = true ∨
       matchNvmeDisk p.toList = true ∨
       (matchNvmeParti p.toList).isSome = true)) ∧
    ((devPathPartitionToDiskAndPartitionId p).isSome ↔
      ((matchAlphaParti "/dev/sd".toList p.toList).isSome = true ∨
       (matchAlphaParti "/dev/xvd".toList p.toList).isSome = true ∨
       (matchAlphaParti "/dev/vd".toList p.toList).isSome = true ∨
       (matchNvmeParti p.toList).isSome = true)) ∧
    ((gptIsEspPartition img p).isSome ↔
      (devPathPartitionToDiskAndPartitionId p).isSome) := by
  refine ⟨?_, ?_, ?_⟩
  · simp only [devPathIsDiskOrPartition]
    split_ifs with h1 h2 h3 h4 h5 h6 h7 h8 <;> simp_all
  · simp only [devPathPartitionToDiskAndPartitionId]
    cases hm1 : matchAlphaParti "/dev/sd".toList p.toList with
    | some v => obtain ⟨d, i⟩ := v; simp [hm1]
    | none =>
      cases hm2 : matchAlphaParti "/dev/xvd".toList p.toList with
      | some v => obtain ⟨d, i⟩ := v; simp [hm1, hm2]
      | none =>
        cases hm3 : matchAlphaParti "/dev/vd".toList p.toList with
        | some v => obtain ⟨d, i⟩ := v; simp [hm1, hm2, hm3]
        | none =>
          cases hm4 : matchNvmeParti p.toList with
          | some v => obtain ⟨d, i⟩ := v; simp [hm1, hm2, hm3, hm4]
          | none => simp [hm1, hm2, hm3, hm4]
  · cases hm : devPathPartitionToDiskAndPartitionId p with
    | some v => obtain ⟨d, i⟩ := v; simp only [gptIsEspPartition, hm]; split_ifs <;> simp
    | none => simp [gptIsEspPartition, hm]

theorem gptNewGuid_esp :
    gptNewGuid "C12A7328-F81F-11D2-BA4B-00A0C93EC93B" =
      some [0x28, 0x73, 0x2A, 0xC1, 0x1F, 0xF8, 0xD2, 0x11,
            0xBA, 0x4B, 0x00, 0xA0, 0xC9, 0x3E, 0xC9, 0x3B] := by
  decide

/-- C4: ESP detection.  For a partition path that parses to partition number
`partId`, `gptIsEspPartition` returns true iff the sector-0 MBR boot signature
is 0xAA55, at least one of the 4 MBR partition records has os_type 0xEE, and
the GPT entry at the header's entry-array LBA indexed by `partId` has type
GUID equal to the ESP GUID packed first-3-fields-little-endian,
last-8-bytes-literal; flipping any one condition yields false. -/
theorem gptIsEspPartition_spec (img : List Nat) (devPath d : String) (partId : Nat)
    (h : devPathPartitionToDiskAndPartitionId devPath = some (d, partId)) :
    gptIsEspPartition img devPath = some true ↔
      (leToNat (readBytes img 510 2) = 0xAA55 ∧
       (∃ i, i < 4 ∧ img.getD (446 + 16 * i + 4) 0 = 0xEE) ∧
       readBytes img (leToNat (readBytes img (512 + 72) 8) * 512 +
           128 * (partId - 1)) 16 =
         [0x28, 0x73, 0x2A, 0xC1, 0x1F, 0xF8, 0xD2, 0x11,
          0xBA, 0x4B, 0x00, 0xA0, 0xC9, 0x3E, 0xC9, 0x3B]) := by
  have hAny : ((List.range 4).any fun i =>
      img.getD (446 + 16 * i + 4) 0 == 0xEE) = true ↔
      (∃ i, i < 4 ∧ img.getD (446 + 16 * i + 4) 0 = 0xEE) := by
    simp [List.any_eq_true, List.mem_range]
  simp only [gptIsEspPartition, h, gptNewGuid_esp]
  split_ifs with h1 h2 h3
  · simp only [h1]
    constructor
    · intro hx
      exact absurd hx (by simp)
    · intro hx
      exact hx.1.elim
  · rw [← hAny]
    simp only [h2, Bool.false_eq_true]
    constructor
    · intro hx
      exact absurd hx (by simp)
    · intro hx
      exact hx.2.1.elim
  · simp only [ne_eq, Option.some.injEq] at h3
    constructor
    · intro hx
      exact absurd hx (by simp)
    · intro hx
      exact absurd hx.2.2 h3
  · simp only [ne_eq, Option.some.injEq, not_not] at h3
    simp only [not_not] at h1
    rw [← hAny]
    simp only [Bool.not_eq_false] at h2
    exact iff_of_true rfl ⟨h1, h2, h3⟩

/-- Witness for C4: the characterization instantiated on the empty disk image
and partition path `/dev/sda1` (where all three conditions are false and the
detector returns `some false`). -/
theorem gptIsEspPartition_spec_witness :
    gptIsEspPartition [] "/dev/sda1" = some true ↔
      (leToNat (readBytes [] 510 2) = 0xAA55 ∧
       (∃ i, i < 4 ∧ List.getD [] (446 + 16 * i + 4) 0 = 0xEE) ∧
       readBytes [] (leToNat (readBytes [] (512 + 72) 8) * 512 + 128 * (1 - 1)) 16 =
         [0x28, 0x73, 0x2A, 0xC1, 0x1F, 0xF8, 0xD2, 0x11,
          0xBA, 0x4B, 0x00, 0xA0, 0xC9, 0x3E, 0xC9, 0x3B]) :=
  gptIsEspPartition_spec [] "/dev/sda1" "/dev/sda" 1 (by decide)

theorem addPartition_ok (ptt : String) (parts : List Parti) (pType : String)
    (pStart pEnd : Nat) (parts' : List Parti)
    (h : addPartition ptt parts pType pStart pEnd = .ok parts') :
    parts' = parts ++ [⟨pStart, pEnd, pType⟩] ∧ pStart ≤ pEnd := by
  unfold addPartition at h
  split_ifs at h <;>
    first
      | exact Except.noConfusion h
      | (injection h with h; exact ⟨h.symm, by omega⟩)

theorem sizeToSectors_ge (n : Nat) (u : SizeUnit) (h : 1 ≤ sizeToSectors n u) :
    2048 ≤ sizeToSectors n u := by
  cases u <;> simp only [sizeToSectors] at * <;> omega

theorem getFreeRegion_rStart_ge (totalSectors : Nat) (parts : List Parti) :
    2048 ≤ (getFreeRegion totalSectors parts).rStart := by
  unfold getFreeRegion
  dsimp only
  split <;> omega

theorem eraseOpOk_of (pStart pEnd qEnd : Nat) (t : String) (h1 : pStart ≤ qEnd)
    (h2 : qEnd ≤ pEnd) (h3 : 32 ≤ qEnd + 1 - pStart ∨ pEnd = qEnd) :
    eraseOpOk ⟨pStart, qEnd, t⟩ (erasePartitionSignature pStart pEnd) := by
  unfold eraseOpOk erasePartitionSignature
  rcases h3 with h32 | heq
  · rw [if_neg (show ¬ pEnd - pStart + 1 < 32 by omega)]
    exact ⟨rfl, Or.inr ⟨h32, rfl⟩, show pStart + 32 ≤ qEnd + 1 by omega⟩
  · subst heq
    split
    · rename_i hlt
      exact ⟨rfl, Or.inl ⟨show pEnd + 1 - pStart < 32 by omega,
        show pEnd - pStart + 1 = pEnd + 1 - pStart by omega⟩,
        show pStart + (pEnd - pStart + 1) ≤ pEnd + 1 by omega⟩
    · rename_i hge
      exact ⟨rfl, Or.inr ⟨show 32 ≤ pEnd + 1 - pStart by omega, rfl⟩,
        show pStart + 32 ≤ pEnd + 1 by omega⟩

theorem processPre_ok (totalSectors : Nat) (ptt : String) :
    ∀ (pre : List (PSize × String)) (parts : List Parti)
      (eraseOps : List (Nat × Nat)) (parts' : List Parti) (ops' : List (Nat × Nat)),
    processPre totalSectors ptt parts eraseOps pre = .ok (parts', ops') →
    ∃ newp newops, parts' = parts ++ newp ∧ ops' = eraseOps ++ newops ∧
      layoutOk totalSectors parts pre newp ∧ newops.length = newp.length ∧
      ∀ i, i < newp.length →
        eraseOpOk (newp.getD i ⟨0, 0, ""⟩) (newops.getD i (0, 0)) := by
  intro pre
  induction pre with
  | nil =>
    intro parts eraseOps parts' ops' h
    simp only [processPre, Except.ok.injEq, Prod.mk.injEq] at h
    exact ⟨[], [], by simp [h.1.symm], by simp [h.2.symm], trivial, rfl,
      by intro i hi; simp at hi⟩
  | cons e rest ih =>
    obtain ⟨pSize, pType⟩ := e
    intro parts eraseOps parts' ops' h
    cases pSize with
    | star =>
      simp only [processPre] at h
      exact Except.noConfusion h
    | fixed n u =>
      simp only [processPre] at h
      split at h
      · exact Except.noConfusion h
      · rename_i hfit
        cases hadd : addPartition ptt parts pType
            (getFreeRegion totalSectors parts).rStart
            ((getFreeRegion totalSectors parts).rStart + sizeToSectors n u - 1) with
        | error e2 => rw [hadd] at h; exact Except.noConfusion h
        | ok parts2 =>
          rw [hadd] at h
          obtain ⟨hp2, hle⟩ := addPartition_ok _ _ _ _ _ _ hadd
          obtain ⟨newp, newops, hparts, hops, hlay, hlen, hok⟩ := ih _ _ _ _ h
          have hreg := getFreeRegion_rStart_ge totalSectors parts
          have hsn1 : 1 ≤ sizeToSectors n u := by omega
          have hsn : 2048 ≤ sizeToSectors n u := sizeToSectors_ge n u hsn1
          refine ⟨⟨(getFreeRegion totalSectors parts).rStart,
              (getFreeRegion totalSectors parts).rStart + sizeToSectors n u - 1,
              pType⟩ :: newp,
            erasePartitionSignature (getFreeRegion totalSectors parts).rStart
              (getFreeRegion totalSectors parts).rEnd :: newops, ?_, ?_, ?_, ?_, ?_⟩
          · rw [hparts, hp2, List.append_assoc, List.singleton_append]
          · rw [hops, List.append_assoc, List.singleton_append]
          · exact ⟨rfl, rfl,
              show (getFreeRegion totalSectors parts).rStart + sizeToSectors n u - 1 + 1 =
                (getFreeRegion totalSectors parts).rStart + sizeToSectors n u by omega,
              by rw [← hp2]; exact hlay⟩
          · simp [hlen]
          · intro i hi
            cases i with
            | zero =>
              simp only [List.getD_cons_zero]
              exact eraseOpOk_of _ _ _ _ (by omega) (by omega) (Or.inl (by omega))
            | succ j =>
              simp only [List.getD_cons_succ]
              exact hok j (by simpa using hi)

theorem processPost_ok (totalSectors : Nat) (ptt : String) :
    ∀ (post : List (PSize × String)) (parts : List Parti)
      (eraseOps : List (Nat × Nat)) (parts' : List Parti) (ops' : List (Nat × Nat)),
    processPost totalSectors ptt parts eraseOps post = .ok (parts', ops') →
    ∃ newp newops, parts' = parts ++ newp ∧ ops' = eraseOps ++ newops ∧
      layoutOk totalSectors parts post newp ∧ newops.length = newp.length ∧
      ∀ i, i < newp.length →
        eraseOpOk (newp.getD i ⟨0, 0, ""⟩) (newops.getD i (0, 0)) := by
  intro post
  induction post with
  | nil =>
    intro parts eraseOps parts' ops' h
    simp only [processPost, Except.ok.injEq, Prod.mk.injEq] at h
    exact ⟨[], [], by simp [h.1.symm], by simp [h.2.symm], trivial, rfl,
      by intro i hi; simp at hi⟩
  | cons e rest ih =>
    obtain ⟨pSize, pType⟩ := e
    intro parts eraseOps parts' ops' h
    cases pSize with
    | fixed n u =>
      simp only [processPost] at h
      exact Except.noConfusion h
    | star =>
      simp only [processPost] at h
      cases hadd : addPartition ptt parts pType
          (getFreeRegion totalSectors parts).rStart
          (getFreeRegion totalSectors parts).rEnd with
      | error e2 => rw [hadd] at h; exact Except.noConfusion h
      | ok parts2 =>
        rw [hadd] at h
        obtain ⟨hp2, hle⟩ := addPartition_ok _ _ _ _ _ _ hadd
        obtain ⟨newp, newops, hparts, hops, hlay, hlen, hok⟩ := ih _ _ _ _ h
        refine ⟨⟨(getFreeRegion totalSectors parts).rStart,
            (getFreeRegion totalSectors parts).rEnd, pType⟩ :: newp,
          erasePartitionSignature (getFreeRegion totalSectors parts).rStart
            (getFreeRegion totalSectors parts).rEnd :: newops, ?_, ?_, ?_, ?_, ?_⟩
        · rw [hparts, hp2, List.append_assoc, List.singleton_append]
        · rw [hops, List.append_assoc, List.singleton_append]
        · exact ⟨rfl, rfl, rfl, by rw [← hp2]; exact hlay⟩
        · simp [hlen]
        · intro i hi
          cases i with
          | zero =>
            simp only [List.getD_cons_zero]
            exact eraseOpOk_of _ _ _ _ hle (le_refl _) (Or.inr rfl)
          | succ j =>
            simp only [List.getD_cons_succ]
            exact hok j (by simpa using hi)

theorem layoutOk_append (totalSectors : Nat) :
    ∀ (l1 : List (PSize × String)) (q1 : List Parti) (parts : List Parti)
      (l2 : List (PSize × String)) (q2 : List Parti),
    layoutOk totalSectors parts l1 q1 →
    layoutOk totalSectors (parts ++ q1) l2 q2 →
    layoutOk totalSectors parts (l1 ++ l2) (q1 ++ q2) := by
  intro l1
  induction l1 with
  | nil =>
    intro q1 parts l2 q2 h1 h2
    cases q1 with
    | nil => simpa using h2
    | cons q t => exact absurd h1 (by simp [layoutOk])
  | cons e rest ih =>
    obtain ⟨pSize, pType⟩ := e
    intro q1 parts l2 q2 h1 h2
    cases q1 with
    | nil => exact absurd h1 (by simp [layoutOk])
    | cons q t =>
      obtain ⟨ha, hb, hc, hd⟩ := h1
      refine ⟨ha, hb, hc, ?_⟩
      have h2' : layoutOk totalSectors ((parts ++ [q]) ++ t) l2 q2 := by
        rw [List.append_assoc, List.singleton_append]
        exact h2
      exact ih t (parts ++ [q]) l2 q2 hd h2'

theorem splitStar_eq (l a b : List (PSize × String)) (h : splitStar l = .ok (a, b)) :
    l = a ++ b := by
  unfold splitStar at h
  cases hf : findStarIndex l 0 none with
  | error e => rw [hf] at h; exact Except.noConfusion h
  | ok acc =>
    rw [hf] at h
    cases acc with
    | none =>
      simp only [Except.ok.injEq, Prod.mk.injEq] at h
      rw [← h.1, ← h.2, List.append_nil]
    | some i =>
      simp only [Except.ok.injEq, Prod.mk.injEq] at h
      rw [← h.1, ← h.2, List.take_append_drop]

theorem findStarIndex_err :
    ∀ (l : List (PSize × String)) (i : Nat) (acc : Option Nat),
    2 ≤ (l.filter fun e => e.1 == PSize.star).length +
      (if acc.isSome then 1 else 0) →
    findStarIndex l i acc = .error .assertFail := by
  intro l
  induction l with
  | nil =>
    intro i acc h
    simp at h
    split at h <;> omega
  | cons e rest ih =>
    obtain ⟨pSize, pType⟩ := e
    intro i acc h
    cases pSize with
    | star =>
      cases acc with
      | some k => rfl
      | none =>
        simp only [findStarIndex]
        apply ih
        show 2 ≤ (List.filter (fun e => e.1 == PSize.star) rest).length + 1
        simp only [List.filter_cons] at h
        split at h
        · simp at h
          omega
        · rename_i hc
          exact absurd (by decide) hc
    | fixed n u =>
      cases acc with
      | some k =>
        simp only [findStarIndex]
        apply ih
        simp only [List.filter_cons] at h
        split at h
        · rename_i hc
          simp at hc
        · exact h
      | none =>
        simp only [findStarIndex]
        apply ih
        simp only [List.filter_cons] at h
        split at h
        · rename_i hc
          simp at hc
        · exact h

theorem initializeDisk_ok_inv (totalSectors : Nat) (partitionTableType : String)
    (spec : List (PSize × String)) (parts : List Parti) (eraseOps : List (Nat × Nat))
    (h : initializeDisk totalSectors partitionTableType spec = .ok (parts, eraseOps)) :
    ∃ preList postList newp1 newops1 newp2 newops2,
      spec = preList ++ postList ∧
      parts = newp1 ++ newp2 ∧ eraseOps = newops1 ++ newops2 ∧
      layoutOk totalSectors [] preList newp1 ∧
      layoutOk totalSectors newp1 postList newp2 ∧
      newops1.length = newp1.length ∧ newops2.length = newp2.length ∧
      (∀ i, i < newp1.length →
        eraseOpOk (newp1.getD i ⟨0, 0, ""⟩) (newops1.getD i (0, 0))) ∧
      (∀ i, i < newp2.length →
        eraseOpOk (newp2.getD i ⟨0, 0, ""⟩) (newops2.getD i (0, 0))) := by
  simp only [initializeDisk] at h
  split at h
  · exact Except.noConfusion h
  split at h
  · exact Except.noConfusion h
  cases hs : splitStar spec with
  | error e => rw [hs] at h; exact Except.noConfusion h
  | ok pp =>
    obtain ⟨preList, postList⟩ := pp
    rw [hs] at h
    dsimp only at h
    cases hpre : processPre totalSectors
        (if partitionTableType = "mbr" then "msdos" else partitionTableType)
        [] [] preList with
    | error e => rw [hpre] at h; exact Except.noConfusion h
    | ok po =>
      obtain ⟨p1, o1⟩ := po
      rw [hpre] at h
      dsimp only at h
      cases hpost : processPost totalSectors
          (if partitionTableType = "mbr" then "msdos" else partitionTableType)
          p1 o1 postList with
      | error e => rw [hpost] at h; exact Except.noConfusion h
      | ok po2 =>
        obtain ⟨p2, o2⟩ := po2
        rw [hpost] at h
        simp only [Except.ok.injEq, Prod.mk.injEq] at h
        obtain ⟨hp, ho⟩ := h
        obtain ⟨newp1, newops1, hp1, ho1, hlay1, hlen1, hok1⟩ :=
          processPre_ok _ _ _ _ _ _ _ hpre
        obtain ⟨newp2, newops2, hp2, ho2, hlay2, hlen2, hok2⟩ :=
          processPost_ok _ _ _ _ _ _ _ hpost
        rw [List.nil_append] at hp1 ho1
        refine ⟨preList, postList, newp1, newops1, newp2, newops2,
          splitStar_eq _ _ _ hs, ?_, ?_, hlay1, ?_, hlen1, hlen2, hok1, hok2⟩
        · rw [← hp, hp2, hp1]
        · rw [← ho, ho2, ho1]
        · rw [← hp1]
          exact hlay2

/-- C3: `initializeDisk` lays partitions out strictly in the order given —
every explicitly-sized entry is allocated at the start of the current free
region with exactly its requested size, a `"*"` sentinel consumes the whole
remaining free region (`layoutOk`); a spec with two `"*"` entries fails the
`assert` before anything is processed; an explicitly-sized entry that cannot
fit in the current single free region fails with `InsufficientSpaceError`,
and such a failure in the preList propagates out of `initializeDisk`. -/
theorem initializeDisk_spec :
    (∀ totalSectors partitionTableType spec parts eraseOps,
      initializeDisk totalSectors partitionTableType spec = .ok (parts, eraseOps) →
      layoutOk totalSectors [] spec parts) ∧
    (∀ totalSectors partitionTableType spec,
      (partitionTableType = "mbr" ∨ partitionTableType = "gpt") →
      1 ≤ spec.length →
      2 ≤ (spec.filter fun e => e.1 == PSize.star).length →
      initializeDisk totalSectors partitionTableType spec = .error .assertFail) ∧
    (∀ totalSectors ptt parts eraseOps n u t rest,
      (getFreeRegion totalSectors parts).rEnd <
        (getFreeRegion totalSectors parts).rStart + sizeToSectors n u - 1 →
      processPre totalSectors ptt parts eraseOps ((PSize.fixed n u, t) :: rest) =
        .error .insufficientSpace) ∧
    (∀ totalSectors partitionTableType spec preList postList e,
      (partitionTableType = "mbr" ∨ partitionTableType = "gpt") →
      1 ≤ spec.length →
      splitStar spec = .ok (preList, postList) →
      processPre totalSectors
        (if partitionTableType = "mbr" then "msdos" else partitionTableType)
        [] [] preList = .error e →
      initializeDisk totalSectors partitionTableType spec = .error e) := by
  refine ⟨?_, ?_, ?_, ?_⟩
  · intro totalSectors partitionTableType spec parts eraseOps h
    obtain ⟨preList, postList, newp1, newops1, newp2, newops2, hspec, hparts, hops,
      hlay1, hlay2, _, _, _, _⟩ := initializeDisk_ok_inv _ _ _ _ _ h
    rw [hspec, hparts]
    exact layoutOk_append _ _ _ _ _ _ hlay1 (by simpa using hlay2)
  · intro totalSectors partitionTableType spec htable hlen hstar
    have hss : splitStar spec = .error .assertFail := by
      unfold splitStar
      rw [findStarIndex_err spec 0 none (by simpa using hstar)]
    simp only [initializeDisk]
    rw [if_neg (not_not_intro htable), if_neg (by omega), hss]
  · intro totalSectors ptt parts eraseOps n u t rest hlt
    simp only [processPre]
    rw [if_pos hlt]
  · intro totalSectors partitionTableType spec preList postList e htable hlen hsplit hpre
    simp only [initializeDisk]
    rw [if_neg (not_not_intro htable), if_neg (by omega), hsplit]
    dsimp only
    rw [hpre]

/-- Witness for C3: the P6 example spec `[(100MiB, esp), (2GiB, swap),
(*, bcache)]` on a 4 GiB (8388608-sector) disk; a two-star spec; an
over-large entry on a small disk. -/
theorem initializeDisk_spec_witness :
    layoutOk 8388608 []
      [(PSize.fixed 100 SizeUnit.mib, "esp"), (PSize.fixed 2 SizeUnit.gib, "swap"),
       (PSize.star, "bcache")]
      [⟨2048, 206847, "esp"⟩, ⟨206848, 4401151, "swap"⟩,
       ⟨4401152, 8388607, "bcache"⟩] ∧
    initializeDisk 8388608 "gpt"
      [(PSize.star, "bcache"), (PSize.star, "lvm")] = .error .assertFail ∧
    processPre 100000 "gpt" [] [] [(PSize.fixed 100 SizeUnit.gib, "esp")] =
      .error .insufficientSpace ∧
    initializeDisk 100000 "gpt" [(PSize.fixed 100 SizeUnit.gib, "esp")] =
      .error .insufficientSpace := by
  exact ⟨initializeDisk_spec.1 8388608 "gpt"
      [(PSize.fixed 100 SizeUnit.mib, "esp"), (PSize.fixed 2 SizeUnit.gib, "swap"),
       (PSize.star, "bcache")]
      [⟨2048, 206847, "esp"⟩, ⟨206848, 4401151, "swap"⟩, ⟨4401152, 8388607, "bcache"⟩]
      [(2048, 32), (206848, 32), (4401152, 32)] (by rfl),
    initializeDisk_spec.2.1 8388608 "gpt" [(PSize.star, "bcache"), (PSize.star, "lvm")]
      (Or.inr rfl) (by decide) (by decide),
    initializeDisk_spec.2.2.1 100000 "gpt" [] [] 100 SizeUnit.gib "esp" []
      (by decide),
    initializeDisk_spec.2.2.2 100000 "gpt" [(PSize.fixed 100 SizeUnit.gib, "esp")]
      [(PSize.fixed 100 SizeUnit.gib, "esp")] [] .insufficientSpace
      (Or.inr rfl) (by decide) (by rfl) (by rfl)⟩

/-- C8: partition-signature erase bound.  For every partition created by a
successful `initializeDisk` run (and its positionally matching erase write,
performed before the table commit), the erase starts at the partition start,
covers 32 sectors — or the whole partition when it is shorter than 32
sectors — and never writes past the partition's end. -/
theorem initializeDisk_erase_bound (totalSectors : Nat) (partitionTableType : String)
    (spec : List (PSize × String)) (parts : List Parti) (eraseOps : List (Nat × Nat))
    (h : initializeDisk totalSectors partitionTableType spec = .ok (parts, eraseOps)) :
    eraseOps.length = parts.length ∧
    ∀ i, i < parts.length →
      eraseOpOk (parts.getD i ⟨0, 0, ""⟩) (eraseOps.getD i (0, 0)) := by
  obtain ⟨preList, postList, newp1, newops1, newp2, newops2, hspec, hparts, hops,
    hlay1, hlay2, hlen1, hlen2, hok1, hok2⟩ := initializeDisk_ok_inv _ _ _ _ _ h
  subst hparts
  subst hops
  constructor
  · simp [hlen1, hlen2]
  · intro i hi
    by_cases hcase : i < newp1.length
    · rw [List.getD_append _ _ _ _ hcase, List.getD_append _ _ _ _ (by omega)]
      exact hok1 i hcase
    · have hi2 : newp1.length ≤ i := by omega
      rw [List.getD_append_right _ _ _ _ hi2,
        List.getD_append_right _ _ _ _ (by omega), hlen1]
      apply hok2
      simp only [List.length_append] at hi
      omega

/-- Witness for C8: the erase writes of the P6 example run are
`(start, 32)` for each of the three partitions. -/
theorem initializeDisk_erase_bound_witness :
    [(2048, 32), (206848, 32), (4401152, 32)].length =
      [(⟨2048, 206847, "esp"⟩ : Parti), ⟨206848, 4401151, "swap"⟩,
       ⟨4401152, 8388607, "bcache"⟩].length ∧
    ∀ i, i < [(⟨2048, 206847, "esp"⟩ : Parti), ⟨206848, 4401151, "swap"⟩,
       ⟨4401152, 8388607, "bcache"⟩].length →
      eraseOpOk ([(⟨2048, 206847, "esp"⟩ : Parti), ⟨206848, 4401151, "swap"⟩,
          ⟨4401152, 8388607, "bcache"⟩].getD i ⟨0, 0, ""⟩)
        ([(2048, 32), (206848, 32), (4401152, 32)].getD i (0, 0)) :=
  initializeDisk_erase_bound 8388608 "gpt"
    [(PSize.fixed 100 SizeUnit.mib, "esp"), (PSize.fixed 2 SizeUnit.gib, "swap"),
     (PSize.star, "bcache")] _ _ (by rfl)

/-- C2 (last-disk protection): on a cache group whose HDD list is exactly
`[disk]` (and whose SSD, if any, is not `disk`), `remove_disk disk` in both
layout variants returns `StorageLayoutRemoveDiskError(CAN_NOT_REMOVE_LAST_HDD)`
with an empty physical-operation trace, so neither the cache group nor any
device is modified. -/
theorem remove_disk_last_hdd (env : LayoutEnv) (cg : EfiCacheGroup) (disk : String)
    (h1 : cg.hddList = [disk]) (h2 : cg.ssd ≠ some disk) :
    LayoutEfiBcacheLvmExt4.remove_disk env cg disk =
      ([], .error (.removeDiskError .canNotRemoveLastHdd)) ∧
    LayoutEfiBcachefs.remove_disk env cg disk =
      ([], .error (.removeDiskError .canNotRemoveLastHdd)) := by
  refine ⟨?_, ?_⟩ <;>
    simp [LayoutEfiBcacheLvmExt4.remove_disk, LayoutEfiBcachefs.remove_disk, h1, h2]

theorem remove_disk_last_hdd_witness :
    LayoutEfiBcacheLvmExt4.remove_disk envC2 cgC2 "/dev/sdb" =
      ([], .error (.removeDiskError .canNotRemoveLastHdd)) ∧
    LayoutEfiBcachefs.remove_disk envC2 cgC2 "/dev/sdb" =
      ([], .error (.removeDiskError .canNotRemoveLastHdd)) :=
  remove_disk_last_hdd envC2 cgC2 "/dev/sdb" rfl (by decide)

/-- C6 (evacuation ordering and atomicity): in the bcache+LVM variant's
`remove_disk` HDD branch, when the pvmove return code differs from the single
accepted status 5 the trace is exactly `[pvmove]` and the call fails with
`RemoveDiskError` — no vgreduce, no backing-device stop, no model mutation;
when the return code is 5 the trace is exactly
`[pvmove, vgreduce, stopBackingDevice]` in that order and the call succeeds. -/
theorem remove_disk_evacuation (env : LayoutEnv) (cg : EfiCacheGroup)
    (disk dataParti bcacheDev : String)
    (h1 : cg.ssd ≠ some disk) (h2 : disk ∈ cg.hddList) (h3 : 2 ≤ cg.hddList.length)
    (h4 : devPathDiskToPartition disk 2 = some dataParti)
    (h5 : env.findByBackingDevice dataParti = some bcacheDev) :
    (env.pvmoveRc ≠ 5 →
      LayoutEfiBcacheLvmExt4.remove_disk env cg disk =
        ([PhysOp.pvmove bcacheDev], .error (.removeDiskError .failed))) ∧
    (env.pvmoveRc = 5 → ∃ cg2 b,
      LayoutEfiBcacheLvmExt4.remove_disk env cg disk =
        ([PhysOp.pvmove bcacheDev, PhysOp.vgreduce bcacheDev,
          PhysOp.stopBackingDevice bcacheDev], .ok (cg2, b))) := by
  have hlen : ¬ cg.hddList.length ≤ 1 := by omega
  constructor
  · intro hrc
    simp [LayoutEfiBcacheLvmExt4.remove_disk, h1, h2, hlen, h4, h5, hrc]
  · intro hrc
    refine ⟨{ cg with
        hddList := cg.hddList.erase disk
        bootHdd := if cg.bootHdd = some disk then (cg.hddList.erase disk).head?
                   else cg.bootHdd },
      boot_disk cg != (if cg.bootHdd = some disk then (cg.hddList.erase disk).head?
                       else cg.bootHdd), ?_⟩
    simp [LayoutEfiBcacheLvmExt4.remove_disk, remove_hdd, boot_disk,
      h1, h2, hlen, h4, h5, hrc]

theorem remove_disk_evacuation_witness :
    (LayoutEfiBcacheLvmExt4.remove_disk envC6a cgC6 "/dev/sdb" =
       ([PhysOp.pvmove "/dev/bcache0"], .error (.removeDiskError .failed))) ∧
    (∃ cg2 b, LayoutEfiBcacheLvmExt4.remove_disk envC6b cgC6 "/dev/sdb" =
       ([PhysOp.pvmove "/dev/bcache0", PhysOp.vgreduce "/dev/bcache0",
         PhysOp.stopBackingDevice "/dev/bcache0"], .ok (cg2, b))) :=
  ⟨(remove_disk_evacuation envC6a cgC6 "/dev/sdb" "/dev/sdb2" "/dev/bcache0"
      (by decide) (by decide) (by decide) rfl rfl).1 (by decide),
   (remove_disk_evacuation envC6b cgC6 "/dev/sdb" "/dev/sdb2" "/dev/bcache0"
      (by decide) (by decide) (by decide) rfl rfl).2 rfl⟩

/-- C7 (boot-changed signal): refuted for the bcache+LVM variant's
`add_disk` on an HDD.  The HDD branch reads `get_ssd_cache_partition()` where
its own comment says "hdd partition 2", so with no SSD present the call
crashes on `None` with no operation performed, and with an SSD present it
makes the SSD's cache partition a backing device and then crashes with
`AttributeError` on the undefined attribute `self.cg` — in neither case is
the boot-changed boolean `lastBootHdd != boot_disk` ever returned. -/
theorem lvm_add_disk_boot_signal_bug :
    (LayoutEfiBcacheLvmExt4.add_disk envC7 cgC7a "/dev/sdc" =
       ([], .error .noneTypeError)) ∧
    (LayoutEfiBcacheLvmExt4.add_disk envC7 cgC7b "/dev/sdc" =
       ([PhysOp.makeAndRegisterBackingDevice "/dev/sda3"], .error .attributeError)) := by
  exact ⟨rfl, rfl⟩
